import Mathlib

set_option maxRecDepth 1000000

/-!
Verification of the falling-rock tower simulation in `src/src/bin/17.rs`.

The first half of this file is a shallow embedding of the Rust source:
each Rust item is translated to a Lean definition of the same name.
Machine integers (`u16`, `usize`) are modelled as `Nat`, with an explicit
`% 65536` exactly where the Rust `u16` type could discard high bits
(the left shift in `perform_move`); `usize` subtraction is total in Rust
only where the simulation keeps it in range, and the corresponding `Nat`
subtractions are truncating, which agrees on all reachable inputs.
Rust panics (the `unwrap` on an empty cycled iterator) are modelled by
an `Option` result on `part_one`.

The second half adds a bit-packed implementation of the same simulation
(`PTower` packs the `Vec<u16>` grid into one `Nat`, sixteen bits per row,
exactly the memory layout of the vector) together with a proof that it
computes the same states; the packed form is what the kernel evaluates
for the concrete 2022-rock run.
-/

inductive Move where
  | left
  | right
deriving Repr, DecidableEq

inductive Shape where
  | line
  | cross
  | angle
  | stick
  | square
deriving Repr, DecidableEq

def EMPTY_ROW : Nat := 0b100000001

def Shape.bits : Shape → List Nat
  | .line   => [0b111100000, 0b000000000, 0b000000000, 0b000000000]
  | .cross  => [0b010000000, 0b111000000, 0b010000000, 0b000000000]
  | .angle  => [0b001000000, 0b001000000, 0b111000000, 0b000000000]
  | .stick  => [0b100000000, 0b100000000, 0b100000000, 0b100000000]
  | .square => [0b110000000, 0b110000000, 0b000000000, 0b000000000]

def Shape.height : Shape → Nat
  | .line => 1
  | .cross => 3
  | .angle => 3
  | .stick => 4
  | .square => 2

/-- Rust `type Point = (usize, usize)`; `.1` is the x offset, `.2` the y row. -/
abbrev Point := Nat × Nat

structure Rock where
  shape : Shape
  point : Point
deriving Repr, DecidableEq

def Rock.height (r : Rock) : Nat := r.shape.height

def Rock.shifted_bits (r : Rock) : List Nat :=
  r.shape.bits.map (fun b => b >>> r.point.1)

def Rock.row_at_y (r : Rock) (y : Nat) : Option Nat :=
  if y ≤ r.point.2 then
    let local_y := r.point.2 - y
    let bits := r.shifted_bits
    if local_y < bits.length then
      let row := bits.getD local_y 0
      if row > 0 then some row else none
    else none
  else none

structure Tower where
  grid : List Nat
deriving Repr, DecidableEq

/-- One horizontal step of a rock row; the Rust `row << 1` lives in `u16`,
hence the explicit `% 65536`. -/
def shiftRow (m : Move) (row : Nat) : Nat :=
  match m with
  | .left => (row <<< 1) % 65536
  | .right => row >>> 1

def target_x (x : Nat) (m : Move) : Nat :=
  match m with
  | .left => x - 1
  | .right => x + 1

/-- The collision test of `Tower::perform_move`: the rock rows are filtered
to the nonzero ones and enumerated, and each is checked one column over
against the grid row `point.1 - i`. -/
def Tower.can_move (t : Tower) (r : Rock) (m : Move) : Bool :=
  ((r.shifted_bits.filter (fun b => b != 0)).enum.all
    (fun p => (t.grid.getD (r.point.2 - p.1) 0) &&& shiftRow m p.2 == 0))

/-- Rust `Tower::perform_move` mutates the rock; here the updated rock is
returned. -/
def Tower.perform_move (t : Tower) (r : Rock) (m : Move) : Rock :=
  if t.can_move r m then { r with point := (target_x r.point.1 m, r.point.2) } else r

/-- Rust `Tower::apply_move`: or each nonzero rock row into the grid. -/
def Tower.apply_move (t : Tower) (r : Rock) : Tower :=
  { grid :=
      r.shifted_bits.enum.foldl
        (fun g p =>
          if p.2 == 0 then g
          else if p.1 ≤ r.point.2 then
            let y := r.point.2 - p.1
            g.set y (g.getD y 0 ||| p.2)
          else g)
        t.grid }

/-- Rust `Tower::move_down`; the returned Bool is the Rust return value and
the returned rock is the (possibly lowered) rock. -/
def Tower.move_down (t : Tower) (r : Rock) : Bool × Rock :=
  let y := r.point.2
  if y ≤ r.height then (false, r)
  else
    let can :=
      (List.range (r.height + 1)).all (fun j =>
        let test_y := y - r.height - 1 + j
        match r.row_at_y (test_y + 1) with
        | some rock_bits => (t.grid.getD test_y 0) &&& rock_bits == 0
        | none => true)
    if can then (true, { r with point := (r.point.1, y - 1) }) else (false, r)

def charToMove (c : Char) : Option Move :=
  if c = '>' then some Move.right
  else if c = '<' then some Move.left
  else none

def parse_moves (input : String) : List Move :=
  input.toList.filterMap charToMove

/-- The cycled iterator `moves.next()` as an indexed lookup; on an empty
pattern the Rust iterator yields `None` and `unwrap` panics, which
`part_one` models by returning `none` up front. -/
def nextMove (pattern : List Move) (i : Nat) : Move :=
  pattern.getD (i % pattern.length) Move.left

def shapeOrder : List Shape := [.line, .cross, .angle, .stick, .square]

/-- The inner `loop` of `part_one`: push then fall, until a fall fails.
Fuel `r.point.2 + 1` is always enough because each successful fall lowers
the rock by one row. -/
def dropLoop (t : Tower) (pattern : List Move) : Nat → Rock → Nat → Rock × Nat
  | 0, r, mi => (r, mi)
  | fuel + 1, r, mi =>
    let r1 := t.perform_move r (nextMove pattern mi)
    let res := t.move_down r1
    if res.1 then dropLoop t pattern fuel res.2 (mi + 1) else (res.2, mi + 1)

structure SimState where
  tower : Tower
  rock : Rock
  max_y : Nat
  mi : Nat
  si : Nat
deriving Repr

/-- The `while tower.grid.len() <= new_y { tower.grid.push(EMPTY_ROW) }`
loop, as the appends it performs. -/
def growGrid (g : List Nat) (new_y : Nat) : List Nat :=
  g ++ List.replicate (new_y + 1 - g.length) EMPTY_ROW

/-- One iteration of the `for _ in 0..2022` loop of `part_one`: settle the
current rock, record the height, spawn the next shape, grow the arena. -/
def stepRock (pattern : List Move) (s : SimState) : SimState :=
  let res := dropLoop s.tower pattern (s.rock.point.2 + 1) s.rock s.mi
  let t' := s.tower.apply_move res.1
  let max' := Nat.max s.max_y res.1.point.2
  let next_shape := shapeOrder.getD ((s.si + 1) % 5) Shape.line
  let new_y := max' + 3 + next_shape.height
  { tower := { grid := growGrid t'.grid new_y },
    rock := { shape := next_shape, point := (3, new_y) },
    max_y := max',
    mi := res.2,
    si := s.si + 1 }

/-- The state just before the first loop iteration of `part_one`. -/
def initState : SimState :=
  { tower := { grid := (List.replicate 5 EMPTY_ROW).set 0 65535 },
    rock := { shape := Shape.line, point := (3, 4) },
    max_y := 0,
    mi := 0,
    si := 0 }

def runRocks (pattern : List Move) : Nat → SimState
  | 0 => initState
  | n + 1 => stepRock pattern (runRocks pattern n)

/-- Rust `part_one`; `max_y as u32` is the final `% 2^32`. An empty jet
pattern makes the first `moves.next().unwrap()` panic, modelled as `none`. -/
def part_one (input : String) : Option Nat :=
  let moves := parse_moves input
  if moves.isEmpty then none
  else some ((runRocks moves 2022).max_y % 4294967296)

def exInput : String := ">>><<><>><<<>><>>><<<>>><<<><<<>><>><<>>"

def exMoves : List Move := parse_moves exInput

/-! ## The extrapolated simulation (`part_two`)

`part_two` in the source is `todo!()`; §4.5 of the specification defines
the intended cycle-detection / extrapolation algorithm, and the
definitions below model it from that text, on top of the per-rock step
of the exact simulation embedded above. -/

/-- Modelled from the spec: the per-column component of the surface
silhouette, "the depth, per playable column, from the current surface
down to the first occupied cell, capped at a small constant". `c` is the
bit index of a playable column (1..7); the scan walks down from `max_y`
at most `cap` rows. -/
def colDepth (g : List Nat) (max_y : Nat) (c : Nat) : Nat → Nat → Nat
  | 0, d => d
  | cap + 1, d =>
    if ((g.getD (max_y - d) 0) >>> c) % 2 == 1 then d else colDepth g max_y c cap (d + 1)

/-- Modelled from the spec: the bounded surface-silhouette encoding, the
seven per-column depths (cap 30) packed in base 256 into one number. -/
def silhouette (g : List Nat) (max_y : Nat) : Nat :=
  (List.range 7).foldr (fun c acc => colDepth g max_y (c + 1) 30 0 + 256 * acc) 0

/-- Modelled from the spec: the SimulationFingerprint, "a composite key of
(shape index mod 5, jet index mod jet-pattern length, a bounded encoding
of the topmost occupied-row silhouette)", packed injectively into one
number. `k` is the number of rocks settled so far, so `k % 5` is the
index of the next shape; `mi` is the jet counter. -/
def fingerprint (plen : Nat) (g : List Nat) (max_y k mi : Nat) : Nat :=
  (silhouette g max_y * plen + mi % plen) * 5 + k % 5

/-- Modelled from the spec (§4.5): after each settled rock, look the
fingerprint up in the map; on the first repeat, extrapolate
`h1 + full_cycles * height_gain + (h_at(r0 + leftover) - h0)`; if `N`
rocks are reached without a repeat, return the exact simulated height.
The recursion is on the number of rocks still to simulate, so at most
`N` rocks are ever simulated. State: current sim state `s`, rocks
settled `k`, height trajectory `heights` (`heights.getD r 0` is the
height after `r` rocks), fingerprint map `seen`. -/
def cycleLoop (pattern : List Move) (bigN : Nat) :
    Nat → SimState → Nat → List Nat → List (Nat × Nat × Nat) → Nat
  | 0, s, _, _, _ => s.max_y
  | fuel + 1, s, k, heights, seen =>
    let s' := stepRock pattern s
    let k' := k + 1
    let heights' := heights ++ [s'.max_y]
    let fp := fingerprint pattern.length s'.tower.grid s'.max_y k' s'.mi
    match seen.lookup fp with
    | some rh =>
        let period := k' - rh.1
        let height_gain := s'.max_y - rh.2
        let remaining := bigN - k'
        let full_cycles := remaining / period
        let leftover := remaining % period
        s'.max_y + full_cycles * height_gain + (heights'.getD (rh.1 + leftover) 0 - rh.2)
    | none => cycleLoop pattern bigN fuel s' k' heights' ((fp, k', s'.max_y) :: seen)

/-- Modelled from the spec: the extrapolated-simulation operation for a
target rock count `N`; an empty jet pattern is the same fatal
configuration error as in `part_one`. -/
def part_two_model (input : String) (bigN : Nat) : Option Nat :=
  let moves := parse_moves input
  if moves.isEmpty then none
  else some (cycleLoop moves bigN bigN initState 0 [0] [])

/-! ## Bit-packed implementation

`PTower` packs the `Vec<u16>` grid into a single `Nat`, sixteen bits per
row — the memory layout of the vector itself — plus the row count. Every
function below mirrors a list-based one above, with list traversals
unrolled over the four shape rows; the `…_eq` theorems later prove they
compute identical results, which is what lets the kernel evaluate the
2022-rock run through fast bignum arithmetic. The bodies spell out the
raw `Nat` primitives (`Nat.shiftRight`, `Nat.land`, `Nat.beq`, `cond`,
…), which the kernel reduces without unfolding operator instances. -/

def pack : List Nat → Nat
  | [] => 0
  | r :: rs => r + pack rs * 65536

def packMoves : List Move → Nat
  | [] => 0
  | m :: ms => (match m with | .right => 1 | .left => 0) + 2 * packMoves ms

/-- The jet move at counter `i`, read from the packed pattern. -/
def mbit (jp plen i : Nat) : Move :=
  cond (Nat.beq (Nat.mod (Nat.shiftRight jp (Nat.mod i plen)) 2) 1) .right .left

structure PTower where
  g : Nat
  len : Nat
deriving Repr, DecidableEq

/-- Field `y` of the packed grid: row `y` of the vector. -/
def pgetRow (g y : Nat) : Nat := Nat.mod (Nat.shiftRight g (Nat.mul 16 y)) 65536

def PTower.pget (t : PTower) (y : Nat) : Nat := pgetRow t.g y

/-- Overwrite the 16-bit field `y` of packed grid `g` with `v`. -/
def pset (g y v : Nat) : Nat :=
  Nat.add
    (Nat.add (Nat.mod g (Nat.shiftLeft 1 (Nat.mul 16 y))) (Nat.shiftLeft v (Nat.mul 16 y)))
    (Nat.shiftLeft (Nat.shiftRight g (Nat.mul 16 (Nat.add y 1))) (Nat.mul 16 (Nat.add y 1)))

/-- The four catalog rows of a shape packed into one number (16 bits per
row, row 0 lowest). -/
def Shape.sbits : Shape → Nat
  | .line   => 480
  | .cross  => 549785174144
  | .angle  => 1924149542976
  | .stick  => 72058693566333184
  | .square => 25166208

/-- Row `j` of the shape, shifted by the rock x offset: entry `j` of
`shifted_bits`. -/
def srow (s : Shape) (x j : Nat) : Nat :=
  Nat.shiftRight (Nat.mod (Nat.shiftRight s.sbits (Nat.mul 16 j)) 65536) x

/-- `shiftRow` by raw primitives. -/
def fshiftRow (m : Move) (row : Nat) : Nat :=
  match m with
  | .left => Nat.mod (Nat.shiftLeft row 1) 65536
  | .right => Nat.shiftRight row 1

/-- One step of the filter-and-enumerate collision scan of `can_move`:
state is (still clear, index among nonzero rows so far). -/
def fcheck (g y : Nat) (m : Move) (st : Bool × Nat) (row : Nat) : Bool × Nat :=
  cond (Nat.beq row 0) st
    (Prod.mk
      (Bool.and st.1
        (Nat.beq (Nat.land (pgetRow g (Nat.sub y st.2)) (fshiftRow m row)) 0))
      (Nat.add st.2 1))

def PTower.can_move (t : PTower) (r : Rock) (m : Move) : Bool :=
  (fcheck t.g r.point.2 m (fcheck t.g r.point.2 m (fcheck t.g r.point.2 m
    (fcheck t.g r.point.2 m (Prod.mk true 0)
      (srow r.shape r.point.1 0)) (srow r.shape r.point.1 1))
        (srow r.shape r.point.1 2)) (srow r.shape r.point.1 3)).1

def PTower.perform_move (t : PTower) (r : Rock) (m : Move) : Rock :=
  cond (t.can_move r m)
    (Rock.mk r.shape (Prod.mk (target_x r.point.1 m) r.point.2)) r

/-- The body of `move_down`'s scan at one `test_y` (`row_at_y` inlined). -/
def fchk (g sb x y ty : Nat) : Bool :=
  cond (Nat.ble (Nat.add ty 1) y)
    (cond (Nat.blt (Nat.sub y (Nat.add ty 1)) 4)
      (cond (Nat.blt 0 (Nat.shiftRight (Nat.mod (Nat.shiftRight sb (Nat.mul 16 (Nat.sub y (Nat.add ty 1)))) 65536) x))
        (Nat.beq (Nat.land (pgetRow g ty)
          (Nat.shiftRight (Nat.mod (Nat.shiftRight sb (Nat.mul 16 (Nat.sub y (Nat.add ty 1)))) 65536) x)) 0)
        true)
      true)
    true

/-- The `test_ys` scan of `move_down`, unrolled for the shape heights 1–4
(the last arm is only reached for heights ≥ 4, and no shape is taller). -/
def fdropAll (g sb x y h : Nat) : Bool :=
  match h with
  | 0 => fchk g sb x y (Nat.sub (Nat.sub y h) 1)
  | 1 => Bool.and (fchk g sb x y (Nat.sub (Nat.sub y h) 1))
         (fchk g sb x y (Nat.add (Nat.sub (Nat.sub y h) 1) 1))
  | 2 => Bool.and (Bool.and (fchk g sb x y (Nat.sub (Nat.sub y h) 1))
         (fchk g sb x y (Nat.add (Nat.sub (Nat.sub y h) 1) 1)))
         (fchk g sb x y (Nat.add (Nat.sub (Nat.sub y h) 1) 2))
  | 3 => Bool.and (Bool.and (Bool.and (fchk g sb x y (Nat.sub (Nat.sub y h) 1))
         (fchk g sb x y (Nat.add (Nat.sub (Nat.sub y h) 1) 1)))
         (fchk g sb x y (Nat.add (Nat.sub (Nat.sub y h) 1) 2)))
         (fchk g sb x y (Nat.add (Nat.sub (Nat.sub y h) 1) 3))
  | _ => Bool.and (Bool.and (Bool.and (Bool.and (fchk g sb x y (Nat.sub (Nat.sub y h) 1))
         (fchk g sb x y (Nat.add (Nat.sub (Nat.sub y h) 1) 1)))
         (fchk g sb x y (Nat.add (Nat.sub (Nat.sub y h) 1) 2)))
         (fchk g sb x y (Nat.add (Nat.sub (Nat.sub y h) 1) 3)))
         (fchk g sb x y (Nat.add (Nat.sub (Nat.sub y h) 1) 4))

def PTower.move_down (t : PTower) (r : Rock) : Bool × Rock :=
  cond (Nat.ble r.point.2 r.height) (Prod.mk false r)
    (cond (fdropAll t.g r.shape.sbits r.point.1 r.point.2 r.height)
      (Prod.mk true (Rock.mk r.shape (Prod.mk r.point.1 (Nat.sub r.point.2 1))))
      (Prod.mk false r))

/-- One settlement write of `apply_move` on the packed grid. -/
def fsetRow (len py : Nat) (g : Nat) (i row : Nat) : Nat :=
  cond (Nat.beq row 0) g
    (cond (Nat.ble i py)
      (cond (Nat.blt (Nat.sub py i) len)
        (pset g (Nat.sub py i) (Nat.lor (pgetRow g (Nat.sub py i)) row))
        g)
      g)

def PTower.apply_move (t : PTower) (r : Rock) : PTower :=
  PTower.mk
    (fsetRow t.len r.point.2 (fsetRow t.len r.point.2 (fsetRow t.len r.point.2
      (fsetRow t.len r.point.2 t.g 0 (srow r.shape r.point.1 0))
        1 (srow r.shape r.point.1 1)) 2 (srow r.shape r.point.1 2))
          3 (srow r.shape r.point.1 3))
    t.len

/-- `pack (List.replicate k EMPTY_ROW)`, recursively. -/
def prep : Nat → Nat
  | 0 => 0
  | k + 1 => EMPTY_ROW + prep k * 65536

def PTower.grow (t : PTower) (new_y : Nat) : PTower :=
  PTower.mk
    (Nat.add t.g (Nat.shiftLeft (prep (Nat.sub (Nat.add new_y 1) t.len)) (Nat.mul 16 t.len)))
    (Nat.add t.len (Nat.sub (Nat.add new_y 1) t.len))

def fNextShape (si : Nat) : Shape :=
  match Nat.mod (Nat.add si 1) 5 with
  | 0 => .line
  | 1 => .cross
  | 2 => .angle
  | 3 => .stick
  | _ => .square

def fDropLoop (t : PTower) (jp plen : Nat) : Nat → Rock → Nat → Rock × Nat
  | 0, r, mi => (r, mi)
  | fuel + 1, r, mi =>
    let res := t.move_down (t.perform_move r (mbit jp plen mi))
    cond res.1 (fDropLoop t jp plen fuel res.2 (Nat.add mi 1))
      (Prod.mk res.2 (Nat.add mi 1))

structure PSimState where
  tower : PTower
  rock : Rock
  max_y : Nat
  mi : Nat
  si : Nat
deriving Repr, DecidableEq

def fStepRock (jp plen : Nat) (s : PSimState) : PSimState :=
  let res := fDropLoop s.tower jp plen (Nat.add s.rock.point.2 1) s.rock s.mi
  let t' := s.tower.apply_move res.1
  let max' := Nat.max s.max_y res.1.point.2
  let next_shape := fNextShape s.si
  let new_y := Nat.add (Nat.add max' 3) next_shape.height
  PSimState.mk (t'.grow new_y)
    (Rock.mk next_shape (Prod.mk 3 new_y))
    max' res.2 (Nat.add s.si 1)

def fInitState : PSimState :=
  PSimState.mk (PTower.mk 4740885567116192907263 5)
    (Rock.mk Shape.line (Prod.mk 3 4)) 0 0 0

/-- `n` more rocks of the packed simulation, from state `s`. -/
def fRunFrom (jp plen : Nat) (s : PSimState) : Nat → PSimState
  | 0 => s
  | n + 1 => fStepRock jp plen (fRunFrom jp plen s n)

def fRunRocks (jp plen : Nat) (n : Nat) : PSimState :=
  fRunFrom jp plen fInitState n

/-- Every row of the grid fits in sixteen bits, as a `u16` does. -/
def rowsLT (l : List Nat) : Prop := ∀ r ∈ l, r < 65536

/-- The collision scan of `can_move`, as a fold that threads (clear so far,
index among nonzero rows) — the shape shared by both implementations. -/
def gstep (G : Nat → Nat) (y : Nat) (m : Move) (st : Bool × Nat) (row : Nat) : Bool × Nat :=
  if row == 0 then st
  else (st.1 && ((G (y - st.2) &&& shiftRow m row) == 0), st.2 + 1)

/-- One write of the settlement fold of `apply_move`. -/
def sApplyStep (py : Nat) (g : List Nat) (p : Nat × Nat) : List Nat :=
  if p.2 == 0 then g
  else if p.1 ≤ py then g.set (py - p.1) (g.getD (py - p.1) 0 ||| p.2) else g

/-! ## Whole-simulation equivalence -/

def TowerRel (t : Tower) (pt : PTower) : Prop :=
  pt.g = pack t.grid ∧ pt.len = t.grid.length ∧ rowsLT t.grid

def SimRel (s : SimState) (ps : PSimState) : Prop :=
  TowerRel s.tower ps.tower ∧ ps.rock = s.rock ∧ ps.max_y = s.max_y ∧
  ps.mi = s.mi ∧ ps.si = s.si

/-! ## Collision-scan index alignment (C3, C9) -/

/-- The nonzero entries of `l` are exactly the first `k`. -/
def nonzeroUpTo (l : List Nat) (k : Nat) : Prop :=
  ∀ j, j < l.length → (l.getD j 0 ≠ 0 ↔ j < k)

/-! ## The tower invariant along a run (C6) -/

/-- The standing state of the arena: all-ones floor at row 0, wall bits set
in every row, every row a u16 value, nonempty. -/
def GridBase (t : Tower) : Prop :=
  t.grid.getD 0 0 = 65535 ∧
  (∀ i, i < t.grid.length → t.grid.getD i 0 &&& 257 = 257) ∧
  rowsLT t.grid ∧ 0 < t.grid.length

/-- The reachable-rock invariant: every shifted row can be shifted back
without losing bits (the rock never clipped against a wall) and no shifted
row touches the wall columns. -/
def RockOK (r : Rock) : Prop :=
  ∀ j, j < 4 →
    srow r.shape r.point.1 j <<< r.point.1 = srow r.shape 0 j ∧
    srow r.shape r.point.1 j &&& 257 = 0

/-- The whole-state invariant carried from rock to rock: the grid is well
formed, every row strictly above the tracked height is bare walls, the
pending rock is unclipped and wall-free, and its anchor is inside the
arena. -/
def RunInv (s : SimState) : Prop :=
  GridBase s.tower ∧
  (∀ i, s.max_y < i → s.tower.grid.getD i 0 ||| 257 = 257) ∧
  RockOK s.rock ∧
  s.rock.point.2 < s.tower.grid.length

/-- The packed simulation state after 250 rocks of the example run, used
as a checkpoint so each kernel evaluation stays within stack bounds. -/
def exState250 : PSimState := { tower := { g := 10486553160677150630906670971366339487200396576878820518342227338985016089005682901643981142017962518015230643563142885436497742887304466792810428706377689397189887462719334261426472387397219980717915295807859360894716565903795297646627615189669311520507832799272823025401260835073525448877823023259351200387588815201845626177190245103933377889957136539166006059695685631725045718893577410916266239612399711518664042742591233151350637723934310405690424665596087517117815989231454843595722087493565019237728945390385746868291395336809212292902339159822337426731567688029657768688537454049286986532321524729679714533542498282264225269074045701763406704905514300379188250085713461743873661146196268959246282116578658199594117085079615791784154557333643852951901924801303825657844518860146451079559464412148655240952500992395825379849068615306589584144830979142865884561428635661082568064835753335662634678926840057512673424629009723838258614357892444048560239425818520801728162000776481960080843989057618548479963469779007646418989663461427771077039385646521922834254469328535525150585449643963785063310917815598163480731393910415133798371769553593399855760573158089513601995268898480897612437591114114425720885356998758000038988440735890288904604158577448374598319964659490211250008038382067314552030051481053502647952304580760619677872466968046174679712817419814680164351914265939282556484729823059050911655347434755512029277620734843001334870914210778784158368336150121843702929968998964215575670582145575113916122704158375999433179943017069658661069994645866404636943222620820686743473479685832188132148160789586592513706474331439933962186161535002473686627829347088807684714605573252486961077103337419364004843587444917286040618004458971187610317017119616770484101587182894576594282370637149580410166305130484557908919550060975942553730327898326138498475779957414407788429311,              len := 390 },   rock := { shape := Shape.line, point := (3, 388) },   max_y := 384,   mi := 1421,   si := 250 }

/-- The packed simulation state after 500 rocks of the example run, used
as a checkpoint so each kernel evaluation stays within stack bounds. -/
def exState500 : PSimState := { tower := { g := 68165811292643430872655448683081786681701850724540615510103693972471508050104035524365990080365151044704960487186494676297440549950981580185444665792526813740927516250386182865692075481273677382503801491852126667883669197522377019074685380134004604524317102035893150725974114056909936576977204399737918932704496634070734408194665859339141908302642341565007026661574045758164694841806159594841336328468472397633696539032100055376415299958759414158490285833644073731763082625216754330491185658613197025505733448058913026297264202716759021053216238920138384771660523170483623990242647215439555886798312949774213720623137084311442913611879969460427939100716169239902963341629181589403207763476807523303632505802884721090922931200574379891593396910200092296423452432310285500186044376398340464184338923400674144059151538884255472891117557898858838259692857778748516708647750632848941551253419499731105201069278417187115234406797685787081316087881396457681301611150090977588224329555372780379064510713824625591060973421075163609400383402909692502110147360659408244247316509616212576928520761269829569250612340636260910665975778979372461885175253440874959238136871109302758158026299865164402406074958858440935006769121861262437608633121330164063489526066724921711150071023421537420142574419876829126949052428347561023944641710124539930278060297618973422366522695144854784713545313875813636870566952861319741418856135662939647276475374982017758662363214860001714303253533664136935835416232946937281150075871251180848496709472906635184561890062572455410454346246179078873217377433436671723263234148051573487736975413012283098744760167455925770038069813709070741285786717761891862694323399342803118792554643153335577096335649279760643722490463873416146679653874561877802907222672449867432887681189560512502909158454375013490341808395920273814950517651077206394473755495938729105640610408431280727492236553904302883790617435904590770668369730297475455588185069694178356558255980805377252570064936277437597509982986410194571997897891452240806469912838190789599107754306593823710205394843794974472716089503468008918411940304073147264385106094789061351474859653272160402250132541598987605823563197978784904593811607567335136804573049163790313952359840560602956179423151842761811508505212152184010623580592714440153003707013576207499420371442831506399123172014248070894385476156166937338448259697710005391652613821958117925092740591148910939828150508590842933571627054083783159585481381394820833732310228228349524973100763763741517210558507602380151601065675235687623428015549443726036279059637273733018035956577467558997081810283825788174045354651061657131443732864409786514046907454890207279939345719623521118320158676537361622647700346478403650896555531711530681005782633775076504308962862264765604412584811852064273702140951681085152533523331155556329501411104246028817045288142565915276613124497284756835957471910775017906629892315032319474384484409325689877532972419344651757558267540139403291770483448103367009457321229085729983824258359649253835891053721444002848499575723141119360678485335830690956555856373297389809556322631768434217140277994030384319558078582016610890259560668602836372342221673770345841034936690730549033819634941954438784446840159545620338281816726744673901451858223591817826376458658392770245825821747954115657616260750181949133418366161983951595796460614520810869710274464672448241697740428648280325192090378624908460146310719438891751845884187038414746743110877993408802401817737183533864571226893184704169893513104825432764017206521343433793137995138370173069863782581545368042094238316477146184261875846250625546938069717402151514972982345723794225778757484260438696656895,              len := 767 },   rock := { shape := Shape.line, point := (3, 765) },   max_y := 761,   mi := 2850,   si := 500 }

/-- The packed simulation state after 750 rocks of the example run, used
as a checkpoint so each kernel evaluation stays within stack bounds. -/
def exState750 : PSimState := { tower := { g := 1903094325550193711381679421455541273989887306098613956641035443134403249753043053706326933197080322581533507498604491175073444514946471312524974896650383550502104116953688802685410140656416612215087702731766222026821836967531713354060248298592391458292019434943916431313892754104964675288835690526417635772469431123700217904082789952105829569448950144700940333826054127803574422576366755569311107836806706590617705413577127872177300145138139183952195273116954681464769868148969587991135946879686685340649120044234693806189485979750571709290452607403229582601894522219251993731815701791559020480589600821460718851393447556439160248359277675543347552471357325091976913212851931870236048372755581590844056253005301017979297770017519132145359087075273671688838277594457473404125712105275785329319658061191484838642591809602604231048097860432041262621219159182448058136097991744116137116956034299644316314109274821284778617002429571724890339702703792985115467627040226149421037224582825168032034926507703620796939160425772689401597762556901595693537240001691252665888394310632333159707545934688327375593261031174376896754093997484174921571986314305095014860532691071471741482221772752613265298263722325737445575844126510809038839525690393156825454527084297717956714961540074777328807517141047332995539857959137190025900866754010673986827311110995012792267700180658514537066877665569849193492626948693624618138521033195638156625853347270645443000666277171131184707666038686036865250968165607371400316161939022662511736345865919736652420220530716230322499790057058965416307774351350168338761757188714361010249911100254399472302859250302498141207589555623206255866432505491003759663214589505510570843365808321132412898040177929926906641567556809819884984621219713990243899024957066824654947686906080169523096673846297599639614610721876828888370248228731126269907236060659349498455058316263158052108544748586602749000280388514573214566048185100963105261235685301988083513861681997880869380691395104598132984597968113795160038124174965429391740943256852955480798634651489245524234003184528051651521637679833278004816912231608854897299903661268381130696972568078499986185466347728131291199398171448712588220448608252060404088665259204061621466910858716884883893704525022170580260211153074247084498946986613622762171149755499178837839211218425411777463830831920407564062887715806746826104771494196592536993342788822377286767984621031768256625995094745194554591250438422706314213130118502628400553618344117472923798564432827850967832876784804246476507406983084146236824019016115079988922648083068909117776079957102052620615622057111777088338477281134920277426964793483739782447634282204257161226234255362244275038531087512664922333786977579304485770289411845766461595643160383051511824012092457808491504800101934524022926335620017115154545165172890206094126331488870517022467255933707292696717838632832846311952735221217253758624334800116594006986903459093032700158084369720013027965063482820396759291040946681171433485741003417374419169209399542196434453284297466366496821760130569341470918527965851243376230798015582581680651431878945021933722137471335347921806239764276282760609935333482313559587815231242089009818871854851340301053490846636233161797300815836773249045607131989253129125100674728172999952695035664314917196937542567514990079000935268256800111896995301715472461819219085967142692525017095114366811060958628417023618395393046704733644958659726205614721228706252621321252831424382867302448495725222927970447274121571045905899546633943811202593705777197578941612208783666913175610863870661739808913304412076006464769732615342291122293064999313096269076275660960234441855935716491205836529312875903289073433467078644807366512978824688536694557030672190881708465625085603644782722830956303079633333860836741927658847407019482547586553956037026289521248811774467495983546101490920640489367581365123078141374453094490579817937900767517094878572543370829003152212546496942620142644080900473282195627906266714542857833912176340410381530699687756644123357719565379359862613246346091934275171547399038916040595896565705524421334501611014080956959053740116195571716834664031340530466174403446648709428174437786860326561359439507757358224148923885095073889399208218743498318065465347537821827491778308527795886909206128466864372547620019307719271100090448829706315779424467872147446729933995098728789898419806545094262689965391003573349075213275518709673341303419056827315989642012250595203264198051418571110137967578468695102552686854995362021055351073672758612461113661262700569300952593797196136146663859450675405342631404832719421656544040019504068758629125587361312446029710237595242225475104859621104189436490848667477183559266616578395797342080056901866414052879951447406073650309611558197822239541980520049429426215569018859659496641690190893113868387541153913508813756332533640682722368459122951472233185203545666918941625361270728260699652092912207119716258585591432343463632765699980313012830604243002812795724718923453706145660637517645444791700431432126695429123164739832859647744514642746580845746952090749377275463574952742051516920031672520829960252092106565294632521341789312399102192342653534025255599463915568093014176816077699177077806715073409419553106431876308875258677260592143354089464995595795111273108313327046436048707617400517340243917609557228394049544388048017842998298354815334916708351582871626532216353854831689908008164601572535137339573266144354421748181287796998111826084163634060028936191,              len := 1146 },   rock := { shape := Shape.line, point := (3, 1142) },   max_y := 1138,   mi := 4282,   si := 750 }

/-- The packed simulation state after 1000 rocks of the example run, used
as a checkpoint so each kernel evaluation stays within stack bounds. -/
def exState1000 : PSimState := { tower := { g := 3482041567899654351181412557376803481708177115314166387071974264123537478584442899052784711987005634726576254331394644008272296966547687418191271714445173937854103063157244235213894060947216389391548012639607868404516520351406562016397395557371840506211663927781314658632911275282080728536820414765732418399816956876252046425129722456473232020154202594852172740131581394293412363602304334996133564940966901749143650856972851532981146758088840202826916245147116407159980853561804504296157338662234985507308985401201254464223849429822805750460459819840814968499961872771885562538731242635425281251373566514509110246017226621968540504995847713924186872000586580016322062798538280438128218997079590000391522786257313370087944193984819593063370040454741915800513877222424019825508129114576751120118999720262684748120629116803374061386476978862676944051224149945434921587552442020977282801592035764569024610144067326634042800334645170749464847384738312142995594931660419471170873988476452733173070667363098725595751525747150622024397203594792192414265270129232339649968591879860450061083224173988426589483463714330553080469955327088522701891012782182069816195215580964271016064473779917771239618789815496495992179163545300735182881601902274282734564970754691599628854308588186422100669277155441133235388567836564043825282043455906202214961887695756483557189860721290630304033754499575715312979058668380092398672346943017241637686965777337521342490341553528693865599897813771445613961667116787117359454863790627863491963012656606126764185869055839856758015490260146270434117881707910707669867874052203075990873631230553163999948207181744800851726082050187137784365852334230697775115685089427958047456336668544991728175118148955186961221152907939322738467602588685877217037100504815318322743943119985283618609639219966191418649910191632545401901018791864486797065400328001589137513708422741837305634674502729026937083296215786758910967547908181499936756470120137251197769443602805723682585454107001124852828159023118615222461104697734713371316149636087821048298113604439656799975689729054354103347584544815323534091433928644671164413144189393696859493483641026473613543228638278810656037834922127636365215373399491690647563906111306236532001912517105001268033992780151576948458633731931903672931554000791701838864738118478733124518842888744387831720439682217668740051075028506977983443783011385084939168767832735628358732921929989634694243368978844388873097048815620023820227847603905273183300135390821518412839265268720508524635990416307371184896642673483119648255166917421314996415138664055272501290091264167879872105358349666366105708130391871670269562354692268107916716001429272347674330326361923778787016050386386989484185234635630466893075268933909222014263626388043446308679384413364736526471269406483527127903900446890190540837568452297576454695633499969121260800357940959445010555002216232638708631355498898022540386732479798230451681844136908415900022088187272588693148414878044826788025351933413392964773961017680045766820716230963612907245064125528356657577674599881139111931448600204795780767859128298895756375412652356126444789089972683942095242337338976024342342360031124688361227306345973798508819087971492355663511544326607779319442202971047940871588804803613390097175845171931803516593443129999376059075750591116831126796731025378779330791022177110671435486081729242931304383757086389473162078175511265937113819676035688673095698284410211265593736409427836815808736097891266406138934614767818258183618469324091440226467497813370514928470037924046625516542805414016518819716324303834286625256790597908531958092962116264390223747060730696754039686816389703705510434526418130697665636559306802442129631640272579046679144826079109702974539785799184972216090630745613593724239361399075039774816319187074928342611659068876112714467872802872321973823399647304153754349452942766328241712810202088690032764369668469815452821600705098262848342773530181813384441614872945618534033572727837426195012529309487293380432390921098276348021077677617179469035251217617640077623552229484452632830403987826129236944371132983347477273302046290396254550584823158282973876085573702515741456413561955336513703506997423251637490236883356031163994833696752371933639355324622009750567811065421575999542297818657265276830203146359498007943413291495537490513583145262743467079473942884024183682346161395984278416057049411490715735873828428872243911795349279801123464173347203820268038517349718478295406387024915887625760996515538890434810478771510608801690660641701560167272322621812344682222652096563180722047326154354933945558954765960792103509587778497483422294953225237711850407745836527983049997891614484945239685576114583608332452301411812458615214690794019532035922817723913275554083255609056112610625612081911726611956404904653412606664710295856641341354961482539628733912095475532525609901740379647940391223189369316194306808359854323810892811891286250075511554569141051319199682661242743887399570398770691995097252134196672904236184947729179084648342484048709940978486787816220424204520810897763544401844683707677791603983910586432711019120423816292616513171731926284772616972272688447018148031434170573696587086793770019581210544050206354581908764310424776132098845055188381602673522527795539398038003475854881719759854396698193369501076895367733462043613852892355431902304978823598875519033719343900717244849814067105113754916495404001654797113917758070931824313454052236806516046662946917970554385739355099347627914753714574406726873849411158989704165925108256170921708226339430850868401237223940360966570329408966812900940677030919360471003899742980400424999578342419151640110792347425194509640554062256583975059674809437084376811536639694855935002577638614651222464200876747711897531305076939017306251100177103594460684998127388989788102773279019300214060106440659469361321749504281837056664259587165685890777854852937167541564307497031738267081088921842805311874243562746112906647513465496953756825064772005999924613194784811574764750565372716512331184371856065911963060293090682509933371742786557542617820371114049529384930371889388093421761587528638221257742181078699330567512454852160397676327264098484874229745815369420064692103365092809514537056494615772972857558417510850269448476426083407023230049357408916340392279971320903780822835310735849958508223932825655894737440316754100310435922107639633053476428633522904833463554704457313730310646058883997666019478465826396921878061480948712317511308143367836271062649689706528321696704117303996615626153040503590402610306241940070640910392604028913060031620157501441891450865869322056308891095596457560973236899491007984895179188498110651728178798901896843784230555825139706083906188661849575080778424867283958694842880720397188792433907257140532657781331418611447364901452783054966175703868565208782624111319205138327763532625860012893964077412795896171388482272528066347878699846478099493304496941814160076795975005572526279050396124948407824817661490040665509255859331014521406898628773057271913083424216061570408778543676028338919587849427517709917530915382777063951573839250821073607329214374133932503108868374172999340547885020049554416979206959982116207035615166884960930937536791635225776586884782145140284965288613973496969325730938390278477087030027620818779630077224318935191140423303167,              len := 1526 },   rock := { shape := Shape.line, point := (3, 1524) },   max_y := 1520,   mi := 5708,   si := 1000 }

/-- The packed simulation state after 1250 rocks of the example run, used
as a checkpoint so each kernel evaluation stays within stack bounds. -/
def exState1250 : PSimState := { tower := { g := 97213741368833254789274587016872188334490816860641817805673720392031281055074266104221831885071373391169218283201462260909923001084742749762586598002397233145131616816615581601400500727938981465927712305089091723639955657628213538570777586732815652830474474804532182920145631447768569708135285844252120154647761728346110741066806336315423575221191173777157894056219009256717914289013535806244551562744174350530600247967808795323997725159740508269230476771663370041144525761459791041217456442052474648798921065317047132715999423617733260473964164265903598322525314318365330103938703028831428997635711697129130314746173023067707721942945790811216469120650414281550838629490680125118829126747820425957164955769228790963348251245269456965461554510207137260211593104678598362861476350101081484836209751084134280502180276361985246293000148663230241262276536980613464170891083432930999067595877178825525687099545815999868793109565173192901075028256591914910017773628197853662595651507538960185077658262996122085876799142930767963399213050468523417054479412464562958394483744497370184235471107358998371662194737493824383102513139928614409084686603584520522499281951412693617068634965920454395694228423224270506487097181323146081909633134764946571317568228221415488901763581062659548922542210717432619873238110357745120746225687709819162411789419895016830808300738917127976989888539879895862834999799534920379079929831278013055482863781590745479326889373534584418736097276977590228372860729808971912405637631817505458406095869198513960558801098892849938350575129485672338202931610428213340276382135674679170037389108091091434022562389373209556838809089245182789828371845525008753026889298289953231037818547494571993351646674288917353796494233709358463146694116714512695155401835816828532605330832679275600407501705615619607466154952578471193661669222606844481558875599651148085969947581137694785338543516625013210479461206492807646361672508782492568450872869664116728705104468187074155208037055071203472687726921314184097124150777958637662938427347759230724540243705993249471053870950966797693878984689509486605951436803429398810603192774288805002190658736106934581043476105198764156931748285794891302319040958757345763383662549146600972502646174828301951581310715415436845657249473384329505982853073236749637673755860147782472861163665691587770868808728145984335420558650892814897597315805103525971817678151515388855506065251197511730301829081338235465810029666592723996720712527045205128852422796886172217966593792001134698955486023485856098991824844079004203641910095568125399090110124818617212259654959667328936324126998770425814836420285606760250757888404058609453230984416908602828841644553283951089319040806662774808335411945798366861250685971767468821980686261840198901349606200964414601551452177533776720953506139535150048668516667693378905430877359683244674221301326761867419200489664717604409717718875752100043363813495513055864772923403215165603984275142640759339103600688011001153405865905501194440971215929172548580549662800747930777578760121784856202039065878765341738609038257881253367153949771060673500623606941161759948793263807702600606346265941220025856351377181908700681137763623767410291127826314731460939176764375237605427555947270307329396671603541365527753118606040115073743742060931733720067998786548580610672832770572721638708006870362435637262024351787837939799637066477724136204425853292802340538805599231334615980584464832733668646559692120456075024982720752484253213867651052441360123551313255431849277637471004051397846539355426218735366553842465268840642098710113585563892590771869743755724047436641710196078919829828667528803048189587229156954170794233000270518215874892426923772036035524784511400648311649397540210892630988390762432893219720001080152460934446920843706139084102547574306799462809494067546347973183581185888346644897700840074358669224365119621692128969282090827966925000845227613054063254303734141522390209582015558494491362490778896868711940256678451889624757227077110277717395319523211901225055142907649102545366716867319857151160384297458364780601181404530557148463047938545255893226542350447382244785725763094096579051314553487018891693927254209483789923027567190974489045659042708150443229831068350988968613789229708571770077156365900643489792068653565672585746930116040545898284080892082022132439820238701548108800372663754528581633815267513637522995449062296956080571430095234766465620562650556219028581376283662839664908908585651678513113165524876900241271969127545169806857550252054367229536479019570998565652369954276219521447216866500632655719313478741666762797461419414750080795553593433911750910410254945698082160772382953744717619100149936904976879404093331937170366622501324903226826475526680205581125463690197989665063189372418274924006711514539375566259062925361755527894438793567021927323644809283872888816819779513102655495630044197643749493159164073472024135244645673412484601021892724778688542049186039942162836535423213284286270149993873418831485286517831081714634598623149363694486902227461956835510878821886820759673541135364018682128317979815373516866838516794415079313228032415264912608993712874997830228844034900687036228900801796055206333460670299859138661473582857462510935577921692471151646790290088950958772901931856859706582769153882923805560438051032568320263883471512204891191402460815308101099010387371540681296089517412724132157999963251874459896412839285267051693468152934236302862579447053576307722657838057482872846339912324935849341971891213303195989155659575184320116211799752396201271871705063471395615490397266784684118475742255287201177019705675939522576608787107607990513918520782657854933529984478867131473320875231960104303568707493344850729693984650340902817909621291990611416003477243839332752433937709406514493563750731301257820732246583008710473735866612105243948006376015364396646400892889748408929933597701889067626446118615022505845950046542831356309482948367257431915907655748467137061295597350769026130158508541603092953791701073783103447120014072466209421495664112262767537421235930275105627084991303439217095820606008871118513288495526865681867999060085187611188649268280214242593377073236250342289872755171226178176871172936223934590954094682155712240718667669725300564467571319135311528844818958624773773411691808932328507917342525103384716044000717053269662533927144464156625801000034174580472922430824858709709737296011125588699628911915963143483744653667330327566233226304125428504918985999850263343596903703848842997539265354816727783118572101690795713914280399021938153960968149710681633131996157823402543070015720788577944454379992060721862916250761284527119510327171934171895739434264249491379675809705673913920156646073354091401846391882237783200915164949868116890123708319103736919332988125810070798690606512039467459333882402178732458202213038511790540193453813611121253773258053945279615311267956751478437178587460088280877648919837021037476907174800371430561795984721756357338537527350543138205337901729265545398189632745642439311447748096457067399583712817367709140247140172039140758850645423361436564131825302443643213344544888048699265917186698537312601885473145893254567909784446803304784561080534841867254237888129009788069861260415588879860513929633145880412130152037918128384952745380790109657027502301663446298698781623339551304698511129972582864872282325391849287852944626972159324203302479037995475685037138999824317001498093178839140382126237028072934523445259893768324589641184553065636758526386381707216640376807521642508880793099832727843198892072144459385065935060296299596071275669840104676867691566979935180990622866307309483720272405521779407378467337466046349283626864058124594308026138094265295863666031865805896811424712573742018920650917349262236596415668566506294960807666502766152781827007987539227611740643909739503061269985540383755182668973730578366899324547587829170915429443651921880910150645645400836177127864383631431975380539314636712182520877950380431475876489000103602168480699923703915252449904275741830860139053297378097044929915579159363674801344977871923512571249190529441866090051569662726828530116991010037754772287543676083133883244201868216683036247425508761837858405436828659780619685632324588953205871475013442939949424967848635012146283108538807300199463096515454588921547103224186164173645698242880107409093074897140209841938832066777618171298281227655245729310942233683734952056094393793426400336559114997397337927006197675410127939535459229078360595043898895607762722489886449476907309048605561788598532868740008875888895217403242912708603527724908779792439703406703940001369427115794501264778999707406082700175321845585065805260551184572660612115661353551853820845509054110909600487754180884906495709708792434239648542809050674601331979957849947963061639907379443003612225756743267176412257077344045557915540205063056826682046406547567282352641719365672212491732889004289367315035796052683699476814067768469424272079752765720790591650186533575513863460387233102715943436680322622713255586551186263060087591089964889076699763914645517569378645342680937524717653807416292715129550912836948138530485673014696214527,              len := 1905 },   rock := { shape := Shape.line, point := (3, 1902) },   max_y := 1898,   mi := 7135,   si := 1250 }

/-- The packed simulation state after 1500 rocks of the example run, used
as a checkpoint so each kernel evaluation stays within stack bounds. -/
def exState1500 : PSimState := { tower := { g := 41413452098717103533542852492823919547409490113488685726194971986580613158258240922841886843214525572007646634436371586604686860140509568798121892737390850811912016172843918394509972959471221123779532623964180075948600168205417638263408615335356809196171531005861469037088779798178373541689103990948233991395699348445857580764728666873668261613641088636123747975843648029629708134810636936501024174555564609860812954913286006417620860837450635578253194423912693463809476607155223105670636730256382729655050517985244457903146665633284473695686106487547496763450570526442726505169930071151252946944398972111878019722963532622590431623483987343794449848042694495569670533675528146795234321999937246867481597951835476318160205029768610701307724505522125355201780724871407253218289196247739018240475358713833876036185127565892060763865694324257302154731917750225543214190691848561188659988635806287074089624238205987289495683916857275773906465293548075958304520726843988256274416302072085941166940902728243807031641228532178274933357669066600429574841509197646532158481476925228439063139885452491344719531815018107021554919754120855696462843277460099529083185507911278183870824807477923274165742072535593322742939857374767939359732423174438980117521482244954403410852893344047207441719083245565842616613417833140193739919879905818186814736402683388748574222654831207421986946064851094684227607631326766135936789729101965625138542387965056185682109726652804418360167125781358236782716011161025803700147378887678510108626802838188785849856386732195432973708288717845054877968448214667805990584079677081254512844716313920254659883928021987021360699189785549072277990568770191557771399651173345711363497427838148025521739469151621331751822540905014178814011229461062901708655007436299961661735111257016151921130810976654626090364333329376705630264094346982157496590800749861885003322106852832488977176916788291094537601904461009236185610467993663728130991671550385694687568010520317987010733753868498249810741192960599111202008729618285917711212477531009097548871760336244418232451218028965249233483992195887475283897315725350196671609433643802164921899059668853120577907280185652033533972122855762447228731796163225824135331611003371219906928574074824072806988202373752899745055984443574787902901924064627018923043525294685291429364897047271599947612586235711167700516849861128574791749140777107462448402210459072871768102484293433585098831331239355312486357698611001188032740010715191760575485393450607904391415443680610065305210840493445076950554095050415225822130615686846037810214839519369968314778900391126764759819243109141381649737169484910094880838624242811474006809098252996235205119942125636987554201210394531660409709963383235056941542302444758510136681253916808282262428561726218944668523828384401740152047923803662359994374893476740870355851995181333465016457478956411935498927202999732721658894112914335584853669474916682504462395058552276009396497584734097285950503613259399095922231173839809091678677132662454234876425423786595275221693204313774821931804989062239796456081955955653371608912158367097598624883236939884219031257301626591393647086939391959439094527400837539470852747052894273822035237067789289486834931964579367375557825254148414563631437876583171214808092623865167384737724679547102560797695758754934635652441019837876363999582672935669113795740279487444988073330349585136303421708535310524120846045139783576316794658852196812795783340298095455041670235004123480054063832360681935984117627056153786933766918896522470439733724713360423313157330013386071787755662481823244613286840495722550317295518055739274684956870396537930614414778477862174942670420141877389275393955605778578623673037033279707210642240771966932937987143240982594049465999319282520824808689468578434470363540285701451999532071970607960527475248914724853989630617860190957762513601543553865455365047500556889753700495107774158994859619878626830408925570228701081903579759861483695992661671086260132042660196735785550428579452559621554775079688920646271040155840275484356958332739872910912726742902316270352656140630732796009993651286082061743309041073841518390610406636967670676223235721852496753774676899735622233769895623134127183550077696962885539409743469510589071146878645827659652758783951273241866380229305902790778638484402384829839314318004863047251088388287387155333352085062933668006070855855232119715060114448408586984087316370039360122665921249770130468908836528091717971463049504567320436657979592352130438308585892654334820458550532145738149947878052703783302763608231321293192420389830979928977035896363929828031480225757044299669179014406571842857010560056512349915448215353751219737597672500081008862231211921882388854012460759904861605840585519474762717941333870775130035903097692760563587429525951779119200691686606364298306263593410093580113629510782965331100090505556094567669954716189165782721960596053717704211628789466541100853889217938584067149232367537108511748014317725147423953014563109686557328163729906706879434939533741540678463979545109780492466961422717253204966237034664913954954626384082509655973170877076048195292257168331185339929917737283003536913688485724755966328734582689933646000883875492417713174620086582600752372842664858968833041935206359420934781769924270894779581533895579470188853424830180750161488083823744330775726457587106942436218586782932780088922868466058074534929611374570002560968649252831185530205361939761576162048394781292944332749553633284681108330893186813255254637428064012047758284080377670987853171076990929800997048802403931369468380196683327865914843106509967972310827496980590716569702716992167403021200525117655989169163136767209125469696355438895734705236213835911954985653649410299500762807932678473076911111542897871860373331733592501181804006103079821307971535712833697169429670194812360863959128172929747484943984719922215479081570042055287809118263260154640405914897758046289954045640434068245921345739379127068880521936717247645434262704221236216244197602753095454880994529410935490360472615210100488511696342253640425056905053978792177225625721503935187078490651012892484574539152336499930585293214344174829433979818693325772159333163452963079022400237136265950214400947387816399259234677710767944083592115097841440615913704565997985731006974824723139070982547954243919664623744509507375371170080239705403683999083181084243057904509281465125728268101037566193714311504456998656626725757835776411334979162434522975711885376430167680980161285310109808613398279967858612752865667183100961532761884408488785531842492405166538345619677897608445087781697823872430939006925052096048701733735078939535314215226899460546628594714201492596660759734057670343235078937666682817398416450107604678505404329097384200932329332570807092624156605714991277129260786513254358058416679302704340627149932984871737635118915941756853514803357420585817458899204604055086012050505452595592739543406970971508271751730066472507534688906212552568317010096134476158721238767040616873766963760791654848391832818868182640738058421087845778481535507393687354075481388545122641190937361861912121960766493451511108066647178029907659047787509388609217263363061951277739944209280194718130520250612645623961829601482677953467976695718580775081564031436243476081898574390365057101201964338123230567755819444178997563912203355589021909188456320699261677727862150077214617154429887619889626457730973817684055107899121415808936687211749973788744172770887979623301334873528216464015975081215639376000318240524461367163055004985448222676992554705390395537809757972761135972390477059047050031478065317828604256267398935121772945304815214150232939810603512571343775275777520766821000805711770382387686652176312293659444471326250535031891646277303028329266266512933910901992454087890603471052996643055535652234979549790888817239721437911964863993173760109434787240185268972131406088678217652603860801573934913602086736216776383329589163874755334881585635520037922183953695714269162573190427266071326271440643612781711101241499123886251530546980454214637587891572730666779260982321703947460495304024379981414972434933045106374362289988658528550812889176242682653276632409454565690777344590320878031317857892816161451768277497044201422922311476624759696756203344935040175172013356631991355609971749585523058973263953330526644335344650914919468571240904978945863429176351870518811612838366695627781716414854475357142242916079137883065470278640529045715745046434052450823054918512740215690549624767771033833182398943985918236299189928401709274159636842486505152289076963184093432754388052811177818422359956409076250074055756471530656116819030001570488938286153625917007718498733052542666272379762949127582356562564420987247475487935041481155794698002740154775523152271130276686425392424440890725362912603723041600904026140405409713724619638794915671278393193385075038621880791758985383521568650001884731580400596241024131787651482132440567061753736570896657621724698569456403555737080242870774499773283688904280719680741123504863142442770614652604226549028729960082494894821262346409361101701845495615658349965761006859766126831029249086699659800513223822418339749980296433891438756473001376776505533682317908588250035644778681532596556900394512206550458974539032335843213633790784017912667353008688852396753899209337672762410499376735173592181857969166095638796116865882754991787757030033998459919358622458676313148570090677973513712223809988075890606861658904018452334522943743377406658435729015664027129512612269877575355395440654484601747889892638070642883940827403789422541608275564351200938792740352234384747252545255750456013138713473109064090385775695922537010338681652239033253571760996120880141772113858589694230998647854395888920162738319342057944808829122268626217144698407914227969179578224516046453429589816880420099072937194747892116917621909491928991632888666588766772193529032394303599933694360122900349261830483446689583047086605225818920799743118162807570951071744681454318121881288199773182062934302470095867001261744140180827205084735614292942456235950005641353113212510254852421490315738511310653446189725080625321092609727520247306034691895464781571272864452634814903995731616111923849857885852448510106511424483400086071017159447411605474510464915930418242388648007326530647553350535320802711719521485052105046903953258509461108096983678229122830114210103550010288761817880070128779429905593718240628756110814377225439214180200840480062570302171214930516514040061985431563136121684749835332921045436543765991607620921726962758982098873574909384291400298324160695154143756241892384452272494036536496483172734396944321774271950568290463878571403055892835663774828086161449821814422034180960416322165686727704312502082101331897724057068584249955770984521825071654543163016726621512444983587607777168042908600095411207704912367768748354700538553930657637390260526955515067672348269533874209966085553313204201048174740713615504351148991841349221661076750335,              len := 2283 },   rock := { shape := Shape.line, point := (3, 2281) },   max_y := 2277,   mi := 8565,   si := 1500 }

/-- The packed simulation state after 1750 rocks of the example run, used
as a checkpoint so each kernel evaluation stays within stack bounds. -/
def exState1750 : PSimState := { tower := { g := 75773102647586450917041133581241428956424401770721455135633211586662787289537605465825769537870065649605506004664991961269342957865282639308160255748651299452168659330944133424055243651826452090016447874797490254220139988025030805366857583937801440046649781271062964459091457180917506054217826756127899096086585024033644317108306367702589119217794091136960164685683778474946154657622453953047358006189895005804440082463457949735601102986531803420214683541593066493930780522115010235711577140099080814441338272759536132549164551135123563480556025885857142494907904194331687950867950169082087198083121981848294909134890469817523516276826160827304422110103504292095071643953641587473881652055141528298857099758285506647679128638755117631563631266869125680884466406670023711627992890793519994479994685430976104535588886337718488814864264715038479231462205906492877197665307666430366210850812366352831771734146428467536640171216601780139352509327855246784676366553263056621860070454441808974974546765531788410619073126187126631917162673492778321349261092429881637363441078543649206232733873079220007380575767554600122941356464837587840730072637032359467740651215227366035772798923122841821015092355565820111152734207702964283739771162797276789533870980226156502588509804093135728956220272117878600849603524950734033063122921002456673982075879149969253329181835815819307686598101389424481779619697771948981886807838240547026499335124556319389025878610691409657529004376711973826900043950074159997248681317357983179509859720332751020913112274162355457440759506298115051635253993483723442659394345474640006620424349321563314945203738293845703298975090132220469849039777492174979355202182360138464316809507560531190798017052703747837035145159307114098800927348103173704379946415530047293921606333724104227213602496483262091676020456299178479238328775527087025729823599235805952951022798826567028693586992511866139165639117771755715605435817740342636999540675186829243129355691229712572751403817220552516804343341664039254743999615466600892985831441952608602689023841309973531972366676460394703857426559897179299451703123182767669423727593742432211223788840145698162780412292491658083609753752179947336876238174605520707187284548652022977704946281589542171583796990777767977885629297947982964642673031419486207346434788123417683113506953569365139362055099711695931045709081450220529439858136498967948139674117923942498557455435323137618585405633965216773723026695007441738207402471354867719434457169305482285184767127971004455626267434822819106843278234736390428638194982055026134248347364819957197409220911571671659248113881332761097115415646219108954752999996940948494820897778666850607521020795815480691607524678510225859699865789317685383426229667003969292983330030417347880983056972995987518317764132750792247140244807275356034060757532093179639201135146062117190674976107876728914074240990296444923413502486545377398121619071577201074697796303424321855969234759401532894651342023340646292460194262629475486526984859513024402584159754445147710066989766836761355275582359688763934425715761676549844962140546991509023234888492321327199590638753715260074936961596106593925033452385976938662563308256752574442436434917419801669163268783110686459027693501071280907494922838719839871288526846295813022903825925846844768927935925394172959744934534116080014382330456236571154484665599972272669861634984399217629828676511584896529123780508235670109815020435357248807202944079179043345608420955486909992018856372199299970369165056782468191979875994207481075347508824581536342597891670307395690876526578657321361427862290153321807455204794137893273709458397030697727339165998382117406525620205136372503250551464969473484097024544742607666674826893227701623524790885247919455613124297424933411484060165769923507176338223198881547587620412116935661911277069613305234531781892490211073001449241182536243852743220879771561948981734303527654533229613271383480920357023298387190343318212435920113334741936309850742360303744633702076861596074083945005662872587910092399976051970718227059210108475097487970179009000830523246752291770282815331062149635599014993230866966405892745411282548913480828313731551243858522402930611209574636490336630318794338667729439151418174252895658814033591580899483517803154769264348662023104637817088179042549394605048082675611606729603064634363933927075079573846355743351872187225021403097571861541708848488220668252794837733281000247694911879720484955706414469358500109938382510245117471188593741841225581050925832946668669788802860633967280566208870985322905243914238151480740523587622066358570038545175667988663866065915456425832637092444854910353489387646329871250772936467722883429640776783906617596713773406858763533606180480070737136467504778482881284406540249151757122756342430764988005148223423609118266044557232976963531602163556624123947338035004551154137769817171691114421306197847199823918926557762139039203156392118547994487222858698688333472529527567480546900980620158343038156414479485801969780458521044882107227508048157432260863317215029398694493553103043321775403888085942088342164837826693070973978132791897965419280111296629723973147272126197737953133213402173560183401780519706097927836774017054964025610412831607743131580884636212685611969061750519505888242762378163961491365223441809421033928674908656706193912753267922878854201424916793082891386993577763433932629562821972943978285119852417916746132114629194895633132040213005731569456554353995062973559711870487503474021271974934209162033147102939768252283376727112556153440855348656253665936958435491223010739600113562161373490206379341072390439101300702459403356572076275203063567872323155108192683126501590101752419562091198872948975545535277064639486110487512787368927154003704352800455579629709231603865670279994915877166146802730314933899702689028464485620372039752352791606978521348834433244597250260687515966591431983586433331208358631386783400644859717889547709088833165861090634576784716248686366727097973908856640489806078880861345686546889269469261720905946416782169417636317991859939365784984657989126178409578726492907762500677752029876904479486983030854964022048906283513368622059016101884941009569223657396789080900723437013473214209120585644608828523568634333990857640891027614921512365932804768342380502272838883101898491911580748132651521569943436578068573443346820797644816624484259654212599829484822295467469598803077358120124476691358178605026122147772877808957016386593494969391429033337619465331087246747446721932863877491294212396254596733064509948187064000814173586922340746378082737786183664100028536214902168664143561433412211606478201453576534760112639672467103748321204178718650895469199041514049524144698969560317198441044703487839652006173736178977926244323309137089983582850977047672037831489901434591721224782944221522290538729986849593445976875093250151103841112452580581338279352822735209098702929378495660013330379238767341794794208807709000627128152473836781708363611287966754277976821331042153202217300778188281341722959143042497693911461062667876992703579130989799375109293508871150629656896215437007041864716513404808661295449791289483847990823272307212390404172060353518036885340019403631387127095338734279943332087296888183245255367510497311445572223078705328334299253454510370389397963734692980338813538800713385195286162749918978557622989436944696415464500358026373719276284807367229226267535487869833047915921522730242386502897477290679779828773159953609437939834523131537900626532287268484922614215734242442454127167038465490245185253037818400804121383362475929028250440518780280072783749092112335833784936288028558636674912171639090019866547867980417705075959924837384700286137776146626962055986998419549840129289335844920022623931776077297317699994740540957708710011611225448408234795491468892174611584488259384174308244142376234014413649509420137767153163833339445634946164372595900971070007491123391353296770530029910191609516594046012517370134181778980975512927402022223879191223079127145457287771427967034179442774086054502575797366006857183740199735854406761563177160741627441147859892522595406429347641118959370635628062040889441916480960849873424027130586311549184909691098308330307073513911493035720911729381421511504017989961089277837763132652004455503571400435328314315130843006007958306317496505643279685361222219782839966732259423841246988744256472827340251938032132274473636087731417056750562332776946733657073029683781582883012349498547307234803177446406520879588952023833253547881112288060528811104388736947268088507222427531991998144404753103361451306294178319332806993607103737753748973400441137864660162721236621224099442775824938520238991906456574769006465336998341704223231485405982010200977163078359399074455522142634913362761052324705776613562271181262278904066432620788910828647277050708851145909924563287997739928659792926487298917271097352388803462396089851439666288670516344917631205148466425727533593241406794009761083133285203415421422362299511121623549569146837832738353117463254405692426761000607374734922455537139752802886331765045365564365371996390053484217702264437123561849720595477723933591232607402374964442892915345708794768490230183485616931043756191325189529238321871625853209701954624552792467006506716025692343861745374912580636976876613456466158879544244460311966254139477983034519398432443783929423788787790773531093643687701119733313456756171535740895746257430064756013976697551669877173805415593552243967078036448284082828900960800536780395013549168731555687054629806539073376057853199837548244581094383568580862952029229870531467423790381052162398576142043747696583496352048816199033337394491834847069236948888372520242354436713558355336896273393221111857620955121006093594260393327810494583785235294762795583463946822963972852570511329637877985148643201367494347077319980306161252971116609409497192116965082880501476520393949111738097299685946188554428942748230869200579746908491309780264128154010694501005105523778190583962683599532845218511888189578129712155266518489953596591595336297393377262591158544168806245503694534445250161184947996252605422294543481403239929514996399986114063407949641187496694871026582334335900428550931518310713909124450580068106730373437848576258790368925133285209363783854552624108224030980211803182781001615211938920295608166974930143866840327820379180753301162896737032193152449803588728556947986799021559265604259824740433620248778430075199776323499477372291576958680113225600395467738923768646861836929832552972525683496609704228957614725196562574020335418312664279067691274155175625805671279688206250178119273226902170768018188996527542703136556723302894980631424470956513900915669296487290285445333739799327423024836967198709254595509284518190387855907469700158209885105617483374085656558748064369596042409300993391632012443941487688140821721605143610369679029847085317626943972082480388333485856692057550274313085811382675209597328967016199638314868866221966024613338119104876427693793177138651094602190359106180684679431017608793869376632667281123522177371835652784876510817333834949653268694080347253149341450834581898507048327427075290133726231943198312119301437300328986307396498294279662087790781268428425866435600089215862959101623761091371709661643369975995242819107659872454856442291277603361975324183564882804476687839725554181619940973754484486154361502571659940670033257357433604926592797536283759954224919519747078470990569538216718680983168184728374710314155810659555204654787526782033458731516930393000906015894127825155924526535092601458501773235379225867838689541442422122111996197563339398265208350192732453987074581998181092106998153905808312617604260905774974409796995459696570637286322777341550909288723295980567145246059958030345658401305392141397523998980841775446254010870375288089841317223203223293970004772374441945862184573389240169896947887832775598887394797543284901873127748269344519786991769066589721207629009896630054417905715066472817550645965732352137840097234099863931843038374001705891556574624501099620197957915349553169928006154675917687604917792574857337158296185994175625548987021208933411097604003331319418435051549690929856842710582463718021317633904472773571362990533861258916625824879647787945183454117294301697854997120722740532417524527579818590643668277356492414111588580647201777350800384612793880782144625931245195334879645917038177241672641364912552549119254064236302465890072556170931062317002441798502504331545457879791740479498347276852644070566754467918676923684039923085353761209135724668221737694898690024988348208998825483354240300115851047411488535714986318384232426145710323275745499080095754400098774950659421355599656103930407954339109385060537204856447802778761463584363653600326956131540081597375452423466516235919207328020819590736585655451647,              len := 2663 },   rock := { shape := Shape.line, point := (3, 2661) },   max_y := 2657,   mi := 9994,   si := 1750 }

/-- The packed simulation state after 2000 rocks of the example run, used
as a checkpoint so each kernel evaluation stays within stack bounds. -/
def exState2000 : PSimState := { tower := { g := 492548403368790902494614058148886882482749700444962405298968618031462996520235555762062985481187969492348545250710096334135272200602824038999867745483101108547077004873801774304867652479213236740479410776918872720979172566061032878321166189128853819872818649031743242397716033803973841378663663689518516971232912032757802519373280285484966167470477817994979754654149979789564741706271298477022347909562575694291692442326626744849523180497431057009817315164101944750199744896425983111981830221595464245609259494775920536782575573752268293404350273750770678500541668677393203830523404077860859563956616809078620613725118236902215519170330165689301837490763320347176607325860032552459305688110159815285995044639593243182833021730144802595169477040982647898831572472043307022552733023946499899692154654747021959517995026093754496425878740758219425088618696101531832080298653512904928685494075306376026959352486251070955551549759937713513345635341261806861964608882070561041453401756612035615457413532871334838260391427306502461076996441745465307244945602652701006346519602480710006981236132414453780006333061436467212256298708899269045566950850452649657613307472711344360319401664914482852907991522657033761022838227441373864185930325906009417969667886467905521063199864317749959463951821820705784589603877975725416573601021421912710437507719008340293002863952142965106459278306558330577486009922808474075326439140476443421733616770071915584864272147712942590037804983568463333923501280466879596786281050554570565084803494733941562135236285423394444593631917443240402014688233541668358648913691877738317615770248778247805052336860337147935399861091030449064257241623586840979389658499387494308485880907378592845686690428229857366062315958757445448811780192883280836006375097783878242249285300847259016804032992004660364072392690103335541999157002670763049523296420857658180618254962955066637611854535542318008391573939601057478560334880056552483999918908333170368657310044151125203164099299430578142569567948639778239428868385187281289897416682536464234646090845190923450536191670942239756633939193183308398371495903945080925201886768552153521124207016054976835468051576839824006812401305653015389265936307070617001205049740495023834904079968963290168173859213848326513296366609761312384688751795675638718464720267752393055098527338134907424163394041204440540881436330534197081982394614045187624724371691306486756376488097202656663923999993517111586060379016374516065441525302192110509196647577702649428355610664336488398007753469025554684599888962929933503659230177848229456815550846031184479683939888041716084359844559343128310070584625622323396901141660871677317353887550328699063851448993479955857891600747897779779349078154543343007126174067386915575370006709474601912929041010602099625481484973366534346499443674962281333913695974199037970942399808663367109828065227269337060142589217315805502248797160241019120505250194957000732125573556733275666755487286264051999168311962562900347936692342552639636243490565968377573505236824710549600125561979516119899103655262413803833838078708768045002430043567699816286713691828959392503220312491328735229795969437818363415166964610469548336831581451118567162237475013727203511360675892942492938802596827632597422894759897861008046568280032969247297634018258246734220220813490148633369063179467647346622551195632700373239991376677349309563401458656832287688769367724593192988649086514432148261632572266892738662843797453603284394026976772936262798272424344054312224212960058976467329055646635345734762194486051938493186147295403687667228261782652886567119793632889032464623389041626269348287364394806454053495647253122849366423991053921484193460908041447658680646114138406194320392874267112949570616937079421455699891232142809002153121584100871765851449006954535314095824523828604792342669560070222104219312414661645886775212132528786227866262258346002363170425427302072550193173004812783321093090250250524826944548444623916793427060623713685992827490545808645346485837447605451472137815238453961359763074346134269782752602392157760572912894927353032958979447801563626734834285120865866089311907681032867218877108302244918305620704998311857566271143138079644002176053656590198708599292346644518642832726812726903419023422275990940680099019452614205530494771022354631321314152749936558974354089574153197847437353576398831221705246770388794815314821897181270975733165733627742055459605972778954862529534367413916185143919312689024210964043101573945446869979228019278551696985718909107157009812231215469233083479625247950453050557732121764560702373272229274751329501071886016940185718711401214051309942245212097506547469364968712994883218838827510217409841897144849523719468736311183062768271244810410197713803814883246664507355059667463145999946817206363206496958865154279616752207835775674631771645863508483392541865425673291316597910686542790815084682127152788337394017758013855358457032399795131167660255997263317740604940836373945371493814420088449194603346384828490974745220692584995461004789806295335528808215640896895564039610066571183203616838099000987654934394792633062880939879570249279531644990110604471280515185201281553204493332421598419645929002194834098971682360666970773248925067633488746108712501584614553775279968270424458614084710479955361171301362641353366810051564879161502709183312658336411694834592617778273887662553241087975317452095444370257521141237042552543146916751716387721751935155576752357591359920149317021592206465421909738744510744539510703335647651200038303981812962524348289135266027815042172784993242662694696540389843836587833986015441924118907182145111302222764363289833782627848120954662807481247547582968319323723267603920028749570135636585746792098216486368236980501703847161766344163400036513672610887795371661800122787298838754188394584013057199160726070565702273044440376335639629160576683081094228365891763414352163931389658776605010037040861045932386081382818893479374107425793243729105643284856892534386469244013277990913006026724444927532701879316554099870027630175480162322038656640509073532323945057475117335495015897285374393325237438110215569559451937084046186578871383755855620909546739850193082129729613240477570941583682294166372338358782205886703426173515022978289637411449929415777377008466640622048041041512205302062545180160609161610342067391159592016325564434014797318778756403482362821344177044390038183851672000333876170900822578563306482276445296785188378486297780987608212759294244596775898912140898922589211143070482833869355657869015980012450701270457057011745060481509386841964193968310360496162062552201852788052356961205727811776719941931330402246409202662087716556084621215310626893295275454664424356517139031602835097289250823846309067845731504266327033431408050751884254219669547115659013241711710922176686494286520994825484737064519837407747052642222965620325009139056749021342664209778812793879712497770146259021009790029235474511247306651834986840202916955966394606612271289483510455588818897690229895839500781388352500010164937283107825077896218892697955034822639788655636261712966625453576132407113803346326186237009545684444156885700429064514991455886152876189560140447672505642140396470379604966291077671851990260402997421316202270310972490471379258735328308357183911382025585433092762049494871131053662216885196003844796981217514232100171779605733128125315077825321441329251946448460776115940281546549170503786571850899925332461169101154469458302998322995816701351217215427820777095681269677365360023412429527417630454516369279089411560937589504524398549878220559669900458238374604622936263357451810520135514404928216881846637445172583564482004535229504762638503702808503943561128075238610483104896355384149141453536941473683633847882595154783193419492151362349059261071798691229196747494221551459221824599060972153747937965402245689862271998655096373029463348840070766660568803960289072976727089587131403818017687009980740254947443433370578249531822178179680858524067531594168866218884361644927437614563431613421882711688236637501645872055265805284909267138812994221110769271695658507065114106705845445458339964485740664221065207007597172549018553305940092553960371806453859998260843808104605084015325068000388960638363776160717594398596148538374796038298537630993233323449929157590647209461967916274716666828655993699711360431893977556367536217750425349380626476272201447031474518886306631035150603925512568080291151722338682298375163787037245362072255797937350072960140656887926413430196774491567548394582834641825704933012186878538463583207544342897321846678540616652071794922825566577954721240958313367741279223152613351360828709768591992963327842598384982961801353504829144553587251797275563320724946509442481372259160326294313277364763602211386597485635808594253910464577998327254490369848097396358576526562239600975155956857633294854363651327751945553855616277336592450634800413190340701566782225180569006785183255860464453349814052296850164893284521376299178043794504989711858251014323805624710406063525131897410970818089629886381235851059367341910706893874263125329304634469876121587384658423560603562471148042428765903003853523234089251943091026306987719426373320622318718435428658454065291930113868751416294140461180359025215840336908122766997593223560605409646072596428744303765498517824536276004528641099355167827319665011085059861529510737420522242779761354047272098776319455668492152500984045856081524978079831941764115798210477798258149802633790062806792735818542237972002239218697929480442045112191585417492451366010011849796609244336045835260666188978024067740539583831174348809640173362003496450098407626065467292375932639240528401252269465240449419264192596228416013941204530275834150388627240341529656962689047705545549312232691063894063735656187064493266411360295230075447636495288025620873282628870407299708195617907176035248157684066848219843809434875564492630761573306466376831233263673064566064927298701993479003582256435874374518312756131508522880118843899672257108126714508381231564223853127917126500871932471898993957144375262982046852663380402740653092138981380237034075016107198911834165568945981402585066647931522141087133112281661951592827128847772158963052726751541745582203347494362227745261123477153301820308107004834053704623431857617545276473266553101973892869325847639870336369667584048618582148177604837457444711542938990952502675218609174551212332248018525017118604789644208971355089596008586698734115406818246099162648478709262671419510559064873482946794169155042078897191958557223238134911280450206372592300347814070717974620144225509189381256843154752163894834169916198391737503300917639567156779516435098751407845145463322115293453272245617607882113601340947011950102771165455716309202966035365190996236810036934118196305404936442323932292039387659748460783664902507535202913097676946124337262763967326310525997181960033991412252825951873845754675878232812198756836299253578990391048276414155445441295592947200550225027730472391093857741723836580404368970820630853331109071571281749724087436047369739189597628682285737825859307183291525138664049852478007829435882891467199325819603535075523336401536718331001386351650364472381351599797740444305313221282042121004748629539718808208045649371654148217361400403578094217342543583787096271558874349467975777846787462037487919997678239894542176419761228030073891489242743646056766977733844920177031742737580663025573976857582488271324282269550196990333203023664114683578248244714272066110866276270049497918527007273105212959402820054360720621074625903543094149925118688376925125113458540037116860214920077428755434753700470101021589650542792496556619284900468939332176329896841923493119642571375559031934525168869735985695957024016166912007575350999892668040642065552083394477924633820847662678008585345689550242550275086751837335197431603095039530503489667171914442712725649120029846887167812579427622845252625832423503456456759670133349502768414149985611650097725894405165190754125629590259257406649135049449141452274967923785007276503379880959092914536270992304061320098471572036047884172353303112493002838304441869832993930998358590381024049553075798959617894499638592578143950312462865598871510170257882432532939424195334129866697883618302140050859546514549980956542225992180247167871380343107266248834235663626281384106554362834030783357329757174145601496939288959063071943235508792206128573052322585386694410929887040494143667181360085379600263882208602559575000693541898662465941885446666219915339468360263978327649943024787993815337572069436846220062763855411487274183848785169679710252581203076474886103217372866838893040000416114083893410881872921572232918240587529446894226950702605855556885565097504754318887061095050688208469746135553581728735449828464342890655790072823547172555441254656012183097508570586519745070634193897967733515453040491023405904386408924153280039677755711926398210934423883175101403923654678315366934311181144088151133684745848182419372574226508208420022540464793884629638572976423929787378227260868998837618184719814382112655207468421310366748560476220995253456835508828588033460381879906366312122176992488140656100330324994701665892086125570262089105155894499273490144518524637607009605410442976774569856012828095687573614633350181319555077343583411158280270363656865857451426811113217765205856722816607687751618919977952724162732537459601157887710586369588192604650682779939888694072937341163103834910528702873845141207898019077773977386925971651553881399944378967126606713725525854259882084584090983360200771010631074100866320915474206230868713604983555985209480130238147134913784023801358123036850183524822307139201451468785003082341234629461386230166438454987843197816138405747052126680740625481838269375631412499781067636570545248495499679538530161304003770417982916497846874375176789281528373848472950263780936663187453966902013386410837341765316466477955845708381179841655281321618183891773291452724278381311199114039208919809916617043136260477689768438576008030792635770114654189516160625406025883102942224932927934781084780928597686140135425161133638168347552159642909554110531167566826658953326983522690681511149767222904297117300543598413729610621126957366685963138494007589749321470086160910893983611990037753587735370698922453746896535266051878159205248823576793945275219608060029705905570981317545499937220849010620437342551365836528625615037558932605770769149303107609141603027654881647608733804225257945442317802843961286589107457511259068780150542040097898908429839496604885941958361238163641510767377597982916758363919133472409942918164903686292878238615388177978552614911,              len := 3040 },   rock := { shape := Shape.line, point := (3, 3038) },   max_y := 3034,   mi := 11421,   si := 2000 }

/-- The packed simulation state after 2022 rocks of the example run, used
as a checkpoint so each kernel evaluation stays within stack bounds. -/
def exState2022 : PSimState := { tower := { g := 1858859166719660761675735803582590437634125863621046390564512076030313135317175226187672701370876869540213010486286733852049774749505348333803320452129933335377552699334528192302259934139666302715570896262299365473893411886929788780129901218296428074936719212002880296503267295654091086126020120211688314004150198089425974663759656725980102950921035352424471665287560564328577996021944921473666169725083379788406065283980467827868794501978406663906617662600220955676560181228813892136503665416243789024909515327983896566807079180505021989648075042193319431117849493130109504642024032400647168094471653672378050407480001225614445327546612637370203682680190391441329456715361430083398278035171013416889489726802991595400714045746419779819313511167704420907167234134178989440887019175514383506460018059003891629349030702871156130336192021799121420646382314188985115648392919308903411284623437976369287373778570488653494227306348817423389946157091045411762860038826967692463414062386021513910446777462045326765327536952220371837312525421554960637416255814895542425608472742736857006935841717634796842649934446435599307408190239422435334670157286075452461278651593834315563481262037064849394371646782488996042228402332373588962240184149920569505354770649621873793582602292643420444764057150099867850062964918892795892028408704273496646235727530187003080990773173406266100434699987758230139402885628872696795304846552561403476395870551985425303002188009064860002009734917237964854668926202265284616817555937697830382251945382730325212329522358030834322588194574816591399589564208648016686271299570493183121561038734350587853946863458463269926372483902300202082357849121330015851914502607982883963714192632257686860421633804528783157420533994473026973675911159985339316462903030631675360821100997240844511868556577257628082490783287385678438341540350303068858203373678159688377992139230109870585263877810855988128705903798336319101195676700748275700510948241690696768029733928949689383931748764131187408270592092342212476525301274158994864787276922290973867705487398525269097725470397009396316432670841835343252681453971640903167132863566318121369104557817649844863682675677828577368110852119734430368146761339769919717064788367030703973285642483604243754379401660807665187457465298741441871705840042721665657933924530666511010704514279187055129855940875192823192117073738062517958073548793232799779487166239411474941443137458315096607103285843491481373698413683976660421189714791992076539531587414487116405548077880383869602378191107995948584542113686729008695186947658268761343246797601290309369499052412461917107589573554379894301925638518640488798088986771528268710471740232896041122152978623306518067836181316701540542135191007077601717867589404736403292308623975382047317482870421411429114497522271122399788183792528267036510726433386330025837296306196322435137351179373481759318585236225221528376194267604559864127592558957876615436406539648735693766587122928774838153406450528093561918621578891516379770310465600109884943133755131180375633787522827669143025550167664590253390039158444461436396996529222016378311587678001204218783193472569682549644685860792803023324514450568385345281193392896557962598121939601396776969682471490999754838247239271031076543602831770959883265799986346474005121210336157583064413507388571980338664004882060904492690482724943157280587643888544343769047915857935937562549523686980098965341040826014628100842222550010239972475977587629516864861411896985177400360903004703033111277769480815096685025279739802604355683325597867188864121973654882614400846296975882044423280820956661131528084095423784302126618433822951673641952998389284364316780636529443106378510270529041677412062172515239728847163359779994480532659061168679219266054364693425176689933070049201092465124028034593048216722346153696307971228884820455110465029995362002922628717152849676080894218866457207773528530579372287642619401981063649383988643925059483968397929019557481070149444625253630519986530596290361613500517441906118289120084340338368341357197713796616958264711193456914146036736724488945450248963716579466674416895804613258275775615403669137836454271358461171253916929984209304536021444948693318321695473457902383158754048731300273137458952423717938186766975518749636488535284422263269322323893715726081060667804948713510632550911187021490085157044236874929520485515526109908816985933908409031231956344292744590990507868624213334040811499338614547899199080640906708525666962158294864807632122089070454570300173562037982768320257699596935757352841240504099691177419627933519173308276210922353215398180190088203075784181884992237984722977828501015679694211456790072445298543474892526651479070189692623513542411315300400003493503309162061250284424321339940360817880934881836345058442514018338492599032793089158442318097314594504164364791726796262931550674309499306105033834533924675828232879536384469519799014978149290801796880823866466934032987778170220769150138947623045903777504762778334133612835145089808882501946052094132019192304088426578482444785940520182337820616927676516879640122399751985152417105260979571779567754941024681172334273013344862621004392208927744839424725749315435206844643080113416212361889042411231698452789059049274201788871694267512310980141985472817629033040986965585814652117065241045986225031274673685993468501914685121031291961475304750106261320615739607276405688405139984768928537413442171399032612055704526393240607036059450142765671931542203028441228468641354701171503506337471891127942631726992170126084783441444881439087159183605219854336766825405004887205356384930732615115682874088233873808607676752356405063553559916544214669284485802260893105330013589429865299247765322624342021110562469933633278217394939899009574872355689720013063599966079171846245636881185910908148403906383503007863249536610097182553261419205996672359392610607835880895292391962234668248747450034523374809255983839567452840022287425921415733608259100877650405642490294247324303596019975699866898854000698052931733534477936025844798172358566072578175169433687575986892921631680741175242783339808644734438833777475145952656910902368641248526675005569814939332088560092414712786471097776587082447049891323667884085953297675527973329911815667280164807482768149196038803221649947971454057828497140586328505629382290831729254036942770785842560215229146509382348696914801380171252736557983844744963126423891359105722987760119893288495297189704509518061429999294051003259960053136006104947948962621806727113801942706534998646745178104475098408266397887165997221295120860331804735338091293531517993883679184482622949970293087385576002388424050416791915316415816572788686917422651660909382317339343151113792486175352769021491115942198941444932588913941036535292881380183661581265589731675160178004868293264710634521001368206666333401684321763694043988721074637911049630373868347463657166402899276948410808832566319711710247341099665052646233531452955386997378755778641125587552178338363408202331603227518513663264889274884092434730608258631188470547603750160323357661662650199500030540003661473109853050071890619870662517627537835562763949606635943345633648167669073880495081166683836828170313784538905254022571729027165717735954072180317700076795120298908223568506215513697801928350613930991523140667067267512322661058686371612293574836071951904000451419923557678362494018590656408116103822802677667824886366974127029891840323464264573583772537592195751832826033662065690638507842847543796326094640264327723755492368062079014655294486339031329847364650797029237554383533292195444610498946459374091198430512615689831359009488307650535999091665388692300679559660359203215200530215570120252323507610555028376860415992096335683398672083244969808101810270248273925432709932829859504873178902151490276114340630592603044149857888156425463033290466492478955633263566921929681861610899179260627485367132891828545574159796246481567870561592439183646502532581468229064593506144517077602964389772776965187880488208730486219323316965819465622169905293629369187048553253348375981417149029520862443791197993298717796152262132287664814431015792815281638698590520460320414022040487199014950558849479407610484227194175422582954284350940089131493407697357817740177284391019327801008557356816420032297759383519654641198972898425551763734005531346764114851841464620612407098744986564360426641971106080637197850274840522089480256685874573423843333907337495218750951139556283841157857564500141664016694887144253301352043671611357723856796980726031320350209306006137383851231176375767111764194755592253578788908901643997461659661534493471805554206588774633191840034430093750391109013442956834300931823809891743209596083887276782643245740713807190897356201357801330602070118372703738816472774480476503276798979441603458365834626210499517503495507640163899990380082350765258742732998813459339445222943194560996159335755516669693729642511454885719147339345147033315206971832314588672641414646997586409775143794059177459420343336544839909139188148922194288388595889646959785950396337551535466063083333269129362126575295659800113760780690254621033095354209707071627625870953221346880979710275965950981706886305879011558322758005140949830847902971346490402002580369876300969078742425396570053523774259037628593130817597703924938073258937036451075157610540832327615242543539505051550254610912207723138988992362503753802816555870080492607279598467315155509706428652482265377656517418581508972325809601078051452617451407080936714330712144394318411048613851751396232291404637887362776050428652119722191426658471942013155976130355364773895441150653534189780281544782513928268614022140792772182397911125092185674141228073116521558900379937618333263645853835835547052041144328780781522078116059416833903355972159961578767939390477670744736405451071390194443232511494676255825465318185269837529964582385913778782275584601583624256328436199116585196844621326298515478166598875937022750383993367913474880187539358422951822711876808836236447435055380115319974033152586317993604265655692084011487259252176877993362022530017649650935532153233432104120701157665973338560002708918320926027618675775552050516765006956902947541604377526931399348450125911507403966844274100831722440938020755411087939920051755656896722658196604038160532016433115885534482926823052438104632724825963937871381499146727395244503382986254624688139305981988016380387994462036806376692671426735002873866289709397788843823928783210214480842528034737008442801619628528780874344373732386592930350323713383870559539143790691331001380215413333994427591778000517942267582131811056015050810242002327585189834221300109881652530657536427022594028446736464577535575451080350973358352098626231382049872533164498046040216511900833580346220516183309243121008171490741602019510527745095877633709298337868744774388981272845768767782296177074949852754701469411839492670536655332708605487427200940019563139130865635755266762311621554857285678343619142125459676494183065071242835578508574451336435996310844593168175094754101792264941476518099672340622114156216232628843360838952899364535622513223441098037371652426023969574576715658617956386798167460885366715355324197702218036961674980663242302920951687085960962086969998682690163936726543649137881231855828575874453886367901903134765357376561158911863635009394907216919747552550801114245930700953935693176345635463663474854008433607036506908965928297437477341945051380164653515804940270511833737800288809348920217877797725538128126651257267543630289584609381848751231998119746046959545416242811757310376854252285987491072352114587763116948746986000783938850138435768097087518132492603525668774191434102194916311738363532893275942126400262195501981211952767610728313888921863315791218043565827003458405819800379437342173646514124585124609537165482905804961148908221772382766003319012530858212381251132115174471185038517418101082928329174193612655304496898660869562152522008320299796999910236480164471749953347299865589345361495804714244449219334220115679819476268037098177593562023483858246859074572175802511557718134711134480212925526557533379607587675186898517512689495105447095034863471112887007783582529847437374440274195921710922847624227083100681669037600256003693607536251929179872771558106694971093269044498239310317961042834084829711895947926379917612767562345471232358097808703638889047258176716958594440087107236463777934368508848238717512008687409239042156668675533079767617028591672739143498280864247698221874613070798031557494757684652992675475495511125991377071237384221810917212583589271895923758362566780137882589238960749480512989797183269077482948460966395957800350631206281079819410747139469744542043256665984483285360785817650456232099200718247244866951725692887062318366855987746749536917731097960042683320025570100119139195612404179344447785902131989278498072528779683441696568653423366368664658502371878665073556185065522648337733928002551005414434257632290610860379270528698773023267574886251177901589008457098511995216009460392975649163986145265982983372205644736629329895958254016058190794675728319705068336363726244758102495431634178694492098881846397498686780491375456141234706838245109613516544643701057371400751220136349826154499262100262573417926039363421846132106177296756603458239608139128589511362141037711809044713198014624965888376715552406787570759995589880612833463415616718720979027190171413705872050202447269229372467836245112365393731402121166158289308469326942275502603201207055357334530349870849847091742604579835119445755398922150891426172607941517895241508455453537079167199440757784649022173872191487747771784668469659475279126474851107442966051271945605517593568845019374427713122892736456675760700662869843767123525133473274069858812161916445671019111985374920774496030468395126505453558734136369392339126490440223331839600101855623649044122707212157588010560011944200930349014485948712339299659472996197545837957145319688930885865635184425513801343871873333614989375287833641959932097782314947817455998134015808602712448704516518072346208710313612154063116858860905715311726724822158862673248277079629075235158499066260846168624559410197374216651414563023044545314800719296559492929243900981333891318816895747071952672667769668441688992837141153226655195444812979597341405978695477481659632247056620527574371051662054280302422773557522626930797674740589683990332149343046523080997195110775215306930584133837317062738418227682144271973842377217364224322247031702144920326436956920094081262550843723202700640599624138531707147237097369175922223782502304633923923282545602316651213839898852554955024988769894320912471844914678271983370773070465122300084999297917766469869902347500410995269821398292429195617073013608681912771826726020875865640079777493208468732322201505531058921518145921220607,              len := 3075 },   rock := { shape := Shape.angle, point := (3, 3074) },   max_y := 3068,   mi := 11543,   si := 2022 }

/-! ## Packed grid correctness -/

theorem pgetRow_def (g y : Nat) : pgetRow g y = (g >>> (16 * y)) % 65536 := rfl

theorem pset_def (g y v : Nat) :
    pset g y v = g % 2 ^ (16 * y) + v * 2 ^ (16 * y) +
      g / 2 ^ (16 * (y + 1)) * 2 ^ (16 * (y + 1)) := by
  show g % (1 <<< (16 * y)) + (v <<< (16 * y)) +
      ((g >>> (16 * (y + 1))) <<< (16 * (y + 1))) = _
  rw [Nat.shiftLeft_eq, Nat.shiftLeft_eq, Nat.shiftLeft_eq, Nat.shiftRight_eq_div_pow,
    one_mul]

theorem rowsLT_cons {a : Nat} {l : List Nat} (ha : a < 65536) (hl : rowsLT l) :
    rowsLT (a :: l) := by
  intro r hr
  rcases List.mem_cons.1 hr with h | h
  · simpa [h] using ha
  · exact hl r h

theorem rowsLT_of_cons {a : Nat} {l : List Nat} (h : rowsLT (a :: l)) :
    a < 65536 ∧ rowsLT l :=
  ⟨h a (by simp), fun r hr => h r (by simp [hr])⟩

theorem pack_lt {l : List Nat} (h : rowsLT l) : pack l < 65536 ^ l.length := by
  induction l with
  | nil => simp [pack]
  | cons a l ih =>
    obtain ⟨ha, hl⟩ := rowsLT_of_cons h
    have hp := ih hl
    simp only [pack, List.length_cons, pow_succ]
    omega

theorem pgetRow_pack {l : List Nat} (h : rowsLT l) (y : Nat) :
    pgetRow (pack l) y = l.getD y 0 := by
  induction l generalizing y with
  | nil =>
    rw [pgetRow_def]
    simp [pack, Nat.shiftRight_eq_div_pow, Nat.zero_div]
  | cons a l ih =>
    obtain ⟨ha, hl⟩ := rowsLT_of_cons h
    cases y with
    | zero =>
      rw [pgetRow_def]
      simp only [Nat.mul_zero, Nat.shiftRight_zero, pack, List.getD_cons_zero]
      rw [Nat.add_mul_mod_self_right, Nat.mod_eq_of_lt ha]
    | succ y =>
      rw [pgetRow_def]
      have hstep : (a + pack l * 65536) >>> (16 * (y + 1)) = pack l >>> (16 * y) := by
        have h16 : 16 * (y + 1) = 16 + 16 * y := by ring
        rw [h16, Nat.shiftRight_add]
        congr 1
        have hdiv : (a + pack l * 65536) >>> 16 = (a + pack l * 65536) / 65536 := by
          rw [Nat.shiftRight_eq_div_pow]
        rw [hdiv, Nat.add_mul_div_right _ _ (by norm_num : (0:Nat) < 65536),
          Nat.div_eq_of_lt ha]
        omega
      simp only [pack, hstep, List.getD_cons_succ]
      rw [← pgetRow_def]
      exact ih hl y

theorem pgetRow_oob {l : List Nat} (h : rowsLT l) {y : Nat} (hy : l.length ≤ y) :
    pgetRow (pack l) y = 0 := by
  have hlt : pack l < 2 ^ (16 * y) := by
    calc pack l < 65536 ^ l.length := pack_lt h
    _ ≤ 65536 ^ y := Nat.pow_le_pow_right (by norm_num) hy
    _ = 2 ^ (16 * y) := by
        rw [show (65536 : Nat) = 2 ^ 16 by norm_num, ← pow_mul]
  rw [pgetRow_def]
  simp [Nat.shiftRight_eq_div_pow, Nat.div_eq_of_lt hlt]

theorem pack_append (l l' : List Nat) :
    pack (l ++ l') = pack l + pack l' * 65536 ^ l.length := by
  induction l with
  | nil => simp [pack]
  | cons a l ih =>
    rw [List.cons_append]
    show a + pack (l ++ l') * 65536 = a + pack l * 65536 + pack l' * 65536 ^ (l.length + 1)
    rw [ih, pow_succ]
    ring

theorem prep_eq (k : Nat) : prep k = pack (List.replicate k EMPTY_ROW) := by
  induction k with
  | zero => simp [prep, pack]
  | succ k ih => simp [prep, List.replicate_succ, pack, ih]

theorem pack_set {l : List Nat} (h : rowsLT l) {y : Nat} (hy : y < l.length) (v : Nat) :
    pack (l.set y v) = pset (pack l) y v := by
  induction l generalizing y with
  | nil => simp at hy
  | cons a l ih =>
    obtain ⟨ha, hl⟩ := rowsLT_of_cons h
    cases y with
    | zero =>
      rw [List.set_cons_zero]
      show v + pack l * 65536 = pset (a + pack l * 65536) 0 v
      rw [pset_def]
      norm_num
      omega
    | succ y =>
      have hyl : y < l.length := by simpa using hy
      have key := ih hl hyl
      rw [List.set_cons_succ]
      show a + pack (l.set y v) * 65536 = pset (a + pack l * 65536) (y + 1) v
      rw [key, pset_def, pset_def]
      have e1 : (a + pack l * 65536) % 2 ^ (16 * (y + 1)) =
          a + (pack l % 2 ^ (16 * y)) * 65536 := by
        have h1 : (16 * (y + 1)) = 16 * y + 16 := by ring
        rw [h1, pow_add]
        rw [show (2:Nat) ^ 16 = 65536 by norm_num]
        conv_lhs => rw [show pack l = pack l % 2 ^ (16*y) + 2 ^ (16*y) * (pack l / 2 ^ (16*y)) from
          (Nat.mod_add_div _ _).symm]
        rw [Nat.add_mul, ← Nat.add_assoc,
          show (2:Nat) ^ (16*y) * (pack l / 2 ^ (16*y)) * 65536 =
            pack l / 2 ^ (16*y) * (2 ^ (16*y) * 65536) by ring,
          Nat.add_mul_mod_self_right]
        have hm := Nat.mod_lt (pack l) (y := 2 ^ (16*y)) (Nat.pos_pow_of_pos _ (by norm_num))
        have hsmall : a + pack l % 2 ^ (16*y) * 65536 < 2 ^ (16*y) * 65536 := by
          omega
        exact Nat.mod_eq_of_lt hsmall
      have e2 : (a + pack l * 65536) / 2 ^ (16 * (y + 1 + 1)) =
          pack l / 2 ^ (16 * (y + 1)) := by
        have h1 : (16 * (y + 1 + 1)) = 16 + 16 * (y + 1) := by ring
        rw [h1, pow_add, ← Nat.div_div_eq_div_mul]
        congr 1
        rw [show (2:Nat) ^ 16 = 65536 by norm_num]
        rw [Nat.add_mul_div_right _ _ (by norm_num : (0:Nat) < 65536),
          Nat.div_eq_of_lt ha]
        omega
      rw [e1, e2]
      have p1 : (2:Nat) ^ (16 * (y + 1)) = 2 ^ (16 * y) * 65536 := by
        rw [show 16 * (y + 1) = 16 * y + 16 by ring, pow_add]
        norm_num
      have p2 : (2:Nat) ^ (16 * (y + 1 + 1)) = 2 ^ (16 * y) * 65536 * 65536 := by
        rw [show 16 * (y + 1 + 1) = 16 * y + 16 + 16 by ring, pow_add, pow_add]
        norm_num
      rw [p1, p2]
      ring

/-! ## Shape row and collision-scan correctness -/

theorem beqNat_eq (a b : Nat) : (a == b) = Nat.beq a b := by
  rw [Bool.eq_iff_iff]
  simp [Nat.beq_eq_true_eq]

theorem bleNat_eq (a b : Nat) : Nat.ble a b = decide (a ≤ b) := by
  rw [Bool.eq_iff_iff]
  simp [Nat.ble_eq]

theorem bltNat_eq (a b : Nat) : Nat.blt a b = decide (a < b) := by
  rw [Bool.eq_iff_iff]
  simp [Nat.blt_eq]

theorem fshiftRow_eq (m : Move) (row : Nat) : fshiftRow m row = shiftRow m row := by
  cases m <;> rfl

theorem srow_def (s : Shape) (x j : Nat) :
    srow s x j = ((s.sbits >>> (16 * j)) % 65536) >>> x := rfl

theorem shifted_bits_eq (s : Shape) (x y : Nat) :
    (Rock.mk s (x, y)).shifted_bits = [srow s x 0, srow s x 1, srow s x 2, srow s x 3] := by
  cases s <;> simp [Rock.shifted_bits, Shape.bits, srow_def, Shape.sbits]

theorem canFold (G : Nat → Nat) (y : Nat) (m : Move) :
    ∀ (l : List Nat) (i : Nat) (b : Bool),
      (l.foldl (gstep G y m) (b, i)).1 =
        (b && ((l.filter (fun x => x != 0)).enumFrom i).all
          (fun p => (G (y - p.1) &&& shiftRow m p.2) == 0)) := by
  intro l
  induction l with
  | nil => simp
  | cons a l ih =>
    intro i b
    by_cases ha : a = 0
    · subst ha
      simp [gstep, ih]
    · simp [List.filter_cons, ha, gstep, ih, Bool.and_assoc]

theorem fcheck_eq_gstep {t : Tower} {pt : PTower} (hg : pt.g = pack t.grid)
    (hlt : rowsLT t.grid) (y : Nat) (m : Move) (st : Bool × Nat) (row : Nat) :
    fcheck pt.g y m st row = gstep (fun yy => t.grid.getD yy 0) y m st row := by
  rcases st with ⟨ok, i⟩
  by_cases h : row = 0
  · subst h
    simp [fcheck, gstep]
  · have hb : Nat.beq row 0 = false := by
      cases hb : Nat.beq row 0
      · rfl
      · exact absurd (Nat.eq_of_beq_eq_true hb) h
    have hbe : (row == 0) = false := by simpa using h
    have grhs : gstep (fun yy => t.grid.getD yy 0) y m (ok, i) row
        = (ok && ((t.grid.getD (y - i) 0 &&& shiftRow m row) == 0), i + 1) := by
      simp [gstep, hbe]
    rw [grhs]
    show cond (Nat.beq row 0) _ _ = _
    rw [hb]
    show (Bool.and ok (Nat.beq (Nat.land (pgetRow pt.g (Nat.sub y i)) (fshiftRow m row)) 0),
      Nat.add i 1) = _
    rw [hg, pgetRow_pack hlt, fshiftRow_eq, beqNat_eq]
    rfl

theorem can_move_eq (t : Tower) (pt : PTower) (hg : pt.g = pack t.grid)
    (hlt : rowsLT t.grid) (r : Rock) (m : Move) :
    pt.can_move r m = t.can_move r m := by
  obtain ⟨s, x, y⟩ := r
  have src : t.can_move (Rock.mk s (x, y)) m =
      (((Rock.mk s (x, y)).shifted_bits).foldl
        (gstep (fun yy => t.grid.getD yy 0) y m) (true, 0)).1 := by
    rw [canFold]
    simp [Tower.can_move, List.enum]
  rw [src, shifted_bits_eq]
  simp only [List.foldl_cons, List.foldl_nil]
  show (fcheck pt.g y m (fcheck pt.g y m (fcheck pt.g y m (fcheck pt.g y m (Prod.mk true 0)
    (srow s x 0)) (srow s x 1)) (srow s x 2)) (srow s x 3)).1 = _
  rw [fcheck_eq_gstep hg hlt, fcheck_eq_gstep hg hlt, fcheck_eq_gstep hg hlt,
    fcheck_eq_gstep hg hlt]

/-! ## Fall-scan correctness -/

theorem perform_move_eq (t : Tower) (pt : PTower) (hg : pt.g = pack t.grid)
    (hlt : rowsLT t.grid) (r : Rock) (m : Move) :
    pt.perform_move r m = t.perform_move r m := by
  have hcm := can_move_eq t pt hg hlt r m
  simp only [Tower.perform_move, PTower.perform_move, hcm, Bool.cond_eq_ite]

theorem getD_srow (s : Shape) (x : Nat) : ∀ j, j < 4 →
    ([srow s x 0, srow s x 1, srow s x 2, srow s x 3]).getD j 0 = srow s x j
  | 0, _ => rfl
  | 1, _ => rfl
  | 2, _ => rfl
  | 3, _ => rfl
  | j + 4, h => absurd h (by omega)

theorem row_at_y_eq (r : Rock) (yq : Nat) :
    r.row_at_y yq =
      (if yq ≤ r.point.2 then
        (if r.point.2 - yq < 4 then
          (if 0 < srow r.shape r.point.1 (r.point.2 - yq) then
            some (srow r.shape r.point.1 (r.point.2 - yq))
          else none)
        else none)
      else none) := by
  obtain ⟨s, ⟨x, y⟩⟩ := r
  simp only [Rock.row_at_y, shifted_bits_eq]
  by_cases h1 : yq ≤ y
  · simp only [if_pos h1]
    by_cases h2 : y - yq < 4
    · simp only [List.length_cons, List.length_nil]
      rw [if_pos (by omega : y - yq < 0 + 1 + 1 + 1 + 1), if_pos h2,
        getD_srow s x _ h2]
    · simp only [List.length_cons, List.length_nil]
      rw [if_neg (by omega : ¬ y - yq < 0 + 1 + 1 + 1 + 1), if_neg h2]
  · simp [if_neg h1]

theorem fchk_eq (t : Tower) (pt : PTower) (hg : pt.g = pack t.grid)
    (hlt : rowsLT t.grid) (s : Shape) (x y ty : Nat) :
    fchk pt.g s.sbits x y ty =
      (match (Rock.mk s (x, y)).row_at_y (ty + 1) with
       | some rock_bits => (t.grid.getD ty 0) &&& rock_bits == 0
       | none => true) := by
  rw [row_at_y_eq]
  show cond (Nat.ble (Nat.add ty 1) y)
      (cond (Nat.blt (Nat.sub y (Nat.add ty 1)) 4)
        (cond (Nat.blt 0 (srow s x (Nat.sub y (Nat.add ty 1))))
          (Nat.beq (Nat.land (pgetRow pt.g ty) (srow s x (Nat.sub y (Nat.add ty 1)))) 0)
          true)
        true)
      true = _
  by_cases h1 : ty + 1 ≤ y
  · rw [show Nat.ble (Nat.add ty 1) y = true by
      rw [bleNat_eq]
      simpa using h1]
    simp only [if_pos h1]
    by_cases h2 : y - (ty + 1) < 4
    · rw [show Nat.blt (Nat.sub y (Nat.add ty 1)) 4 = true by
        rw [bltNat_eq]
        simpa using h2]
      simp only [if_pos h2]
      by_cases h3 : 0 < srow s x (y - (ty + 1))
      · rw [show Nat.blt 0 (srow s x (Nat.sub y (Nat.add ty 1))) = true by
          rw [bltNat_eq]
          simpa using h3]
        simp only [if_pos h3]
        show Nat.beq (Nat.land (pgetRow pt.g ty) _) 0 = _
        rw [hg, pgetRow_pack hlt, beqNat_eq]
        rfl
      · rw [show Nat.blt 0 (srow s x (Nat.sub y (Nat.add ty 1))) = false by
          rw [bltNat_eq]
          simpa using h3]
        simp only [if_neg h3]
        rfl
    · rw [show Nat.blt (Nat.sub y (Nat.add ty 1)) 4 = false by
        rw [bltNat_eq]
        simpa using h2]
      simp only [if_neg h2]
      rfl
  · rw [show Nat.ble (Nat.add ty 1) y = false by
      rw [bleNat_eq]
      simpa using h1]
    simp only [if_neg h1]
    rfl

theorem fdropAll_eq_all (g sb x y : Nat) {h : Nat} (hh : h ≤ 4)
    (f : Nat → Bool) (hf : ∀ j, f j = fchk g sb x y (y - h - 1 + j)) :
    fdropAll g sb x y h = (List.range (h + 1)).all f := by
  interval_cases h <;>
    simp [fdropAll, hf, List.range_succ, Bool.and_assoc]

theorem move_down_eq (t : Tower) (pt : PTower) (hg : pt.g = pack t.grid)
    (hlt : rowsLT t.grid) (r : Rock) :
    pt.move_down r = t.move_down r := by
  obtain ⟨s, ⟨x, y⟩⟩ := r
  have hh : (Rock.mk s (x, y)).height ≤ 4 := by
    cases s <;> simp [Rock.height, Shape.height]
  by_cases hy : y ≤ (Rock.mk s (x, y)).height
  · show cond (Nat.ble y (Rock.mk s (x, y)).height) _ _ = _
    rw [bleNat_eq, Bool.cond_decide]
    simp [Tower.move_down, hy]
  · show cond (Nat.ble y (Rock.mk s (x, y)).height) _ _ = _
    rw [bleNat_eq, Bool.cond_decide]
    have hcan := fdropAll_eq_all pt.g s.sbits x y hh
      (fun j =>
        match (Rock.mk s (x, y)).row_at_y (y - (Rock.mk s (x, y)).height - 1 + j + 1) with
        | some rock_bits => (t.grid.getD (y - (Rock.mk s (x, y)).height - 1 + j) 0) &&& rock_bits == 0
        | none => true)
      (fun j => (fchk_eq t pt hg hlt s x y (y - (Rock.mk s (x, y)).height - 1 + j)).symm)
    simp only [Tower.move_down, if_neg hy]
    show cond (fdropAll pt.g s.sbits x y (Rock.mk s (x, y)).height) _ _ = _
    rw [hcan, Bool.cond_eq_ite]
    rfl

/-! ## Settlement correctness -/

theorem getD_lt_65536 {l : List Nat} (hlt : rowsLT l) (y : Nat) : l.getD y 0 < 65536 := by
  by_cases hy : y < l.length
  · rw [List.getD_eq_getElem l 0 hy]
    exact hlt _ (List.getElem_mem hy)
  · rw [List.getD_eq_default l 0 (by omega)]
    norm_num

theorem rowsLT_set {l : List Nat} (hlt : rowsLT l) {v : Nat} (hv : v < 65536) (y : Nat) :
    rowsLT (l.set y v) := by
  intro r hr
  rcases List.mem_or_eq_of_mem_set hr with h | h
  · exact hlt r h
  · omega

theorem srow_lt (s : Shape) (x j : Nat) : srow s x j < 65536 := by
  rw [srow_def]
  have h1 : (s.sbits >>> (16 * j)) % 65536 < 65536 := Nat.mod_lt _ (by norm_num)
  have h2 : ((s.sbits >>> (16 * j)) % 65536) >>> x ≤ (s.sbits >>> (16 * j)) % 65536 := by
    rw [Nat.shiftRight_eq_div_pow]
    exact Nat.div_le_self _ _
  omega

theorem apply_move_def (t : Tower) (r : Rock) :
    t.apply_move r = Tower.mk ((r.shifted_bits.enum).foldl (sApplyStep r.point.2) t.grid) :=
  rfl

theorem sApplyStep_of_zero {py : Nat} {l : List Nat} {p : Nat × Nat} (hr : p.2 = 0) :
    sApplyStep py l p = l := by
  simp [sApplyStep, hr]

theorem sApplyStep_of_ne {py : Nat} {l : List Nat} {p : Nat × Nat}
    (hr : p.2 ≠ 0) (hi : p.1 ≤ py) :
    sApplyStep py l p = l.set (py - p.1) (l.getD (py - p.1) 0 ||| p.2) := by
  simp only [sApplyStep]
  rw [if_neg (by simpa using hr), if_pos hi]

theorem sApplyStep_of_gt {py : Nat} {l : List Nat} {p : Nat × Nat}
    (hr : p.2 ≠ 0) (hi : ¬ p.1 ≤ py) :
    sApplyStep py l p = l := by
  simp only [sApplyStep]
  rw [if_neg (by simpa using hr), if_neg hi]

theorem setStep_pack {l : List Nat} (hlt : rowsLT l) (py : Nat) (p : Nat × Nat)
    (hrow : p.2 < 65536) :
    pack (sApplyStep py l p) = fsetRow l.length py (pack l) p.1 p.2 ∧
    rowsLT (sApplyStep py l p) ∧ (sApplyStep py l p).length = l.length := by
  by_cases hr : p.2 = 0
  · have hbe : Nat.beq p.2 0 = true := by simpa using hr
    rw [sApplyStep_of_zero hr]
    refine ⟨?_, hlt, rfl⟩
    show pack l = cond (Nat.beq p.2 0) (pack l) _
    rw [hbe]
    rfl
  · have hbe : Nat.beq p.2 0 = false := by
      cases hb : Nat.beq p.2 0
      · rfl
      · exact absurd (Nat.eq_of_beq_eq_true hb) hr
    by_cases hi : p.1 ≤ py
    · have hible : Nat.ble p.1 py = true := by
        rw [bleNat_eq]
        simpa using hi
      rw [sApplyStep_of_ne hr hi]
      by_cases hy : py - p.1 < l.length
      · have hyblt : Nat.blt (Nat.sub py p.1) l.length = true := by
          rw [bltNat_eq]
          simpa using hy
        have hv : l.getD (py - p.1) 0 ||| p.2 < 65536 := by
          have h1 := getD_lt_65536 hlt (py - p.1)
          have e : (65536 : Nat) = 2 ^ 16 := by norm_num
          have h2 : l.getD (py - p.1) 0 ||| p.2 < 2 ^ 16 :=
            Nat.or_lt_two_pow (e ▸ h1) (e ▸ hrow)
          rw [e]
          exact h2
        refine ⟨?_, rowsLT_set hlt hv _, by simp⟩
        show _ = cond (Nat.beq p.2 0) (pack l) _
        rw [hbe]
        show _ = cond (Nat.ble p.1 py) _ _
        rw [hible]
        show _ = cond (Nat.blt (Nat.sub py p.1) l.length) _ _
        rw [hyblt]
        show _ = pset (pack l) (Nat.sub py p.1) (Nat.lor (pgetRow (pack l) (Nat.sub py p.1)) p.2)
        rw [pgetRow_pack hlt, pack_set hlt hy]
        rfl
      · have hyblt : Nat.blt (Nat.sub py p.1) l.length = false := by
          rw [bltNat_eq]
          simpa using hy
        have hset : l.set (py - p.1) (l.getD (py - p.1) 0 ||| p.2) = l :=
          List.set_eq_of_length_le (by omega)
        rw [hset]
        refine ⟨?_, hlt, rfl⟩
        show _ = cond (Nat.beq p.2 0) (pack l) _
        rw [hbe]
        show _ = cond (Nat.ble p.1 py) _ _
        rw [hible]
        show _ = cond (Nat.blt (Nat.sub py p.1) l.length) _ _
        rw [hyblt]
        rfl
    · have hible : Nat.ble p.1 py = false := by
        rw [bleNat_eq]
        simpa using hi
      rw [sApplyStep_of_gt hr hi]
      refine ⟨?_, hlt, rfl⟩
      show _ = cond (Nat.beq p.2 0) (pack l) _
      rw [hbe]
      show _ = cond (Nat.ble p.1 py) _ _
      rw [hible]
      rfl

theorem applyFold (py LEN : Nat) : ∀ (ps : List (Nat × Nat)) (l : List Nat),
    rowsLT l → (∀ p ∈ ps, p.2 < 65536) → LEN = l.length →
    pack (ps.foldl (sApplyStep py) l) =
      ps.foldl (fun g p => fsetRow LEN py g p.1 p.2) (pack l) ∧
    rowsLT (ps.foldl (sApplyStep py) l) ∧
    (ps.foldl (sApplyStep py) l).length = l.length := by
  intro ps
  induction ps with
  | nil =>
    intro l hlt _ _
    exact ⟨rfl, hlt, rfl⟩
  | cons p ps ih =>
    intro l hlt hps hlen
    have hp2 : p.2 < 65536 := hps p (by simp)
    obtain ⟨e1, e2, e3⟩ := setStep_pack hlt py p hp2
    simp only [List.foldl_cons]
    obtain ⟨f1, f2, f3⟩ := ih (sApplyStep py l p) e2
      (fun q hq => hps q (by simp [hq])) (by omega)
    refine ⟨?_, f2, by omega⟩
    rw [f1, e1, hlen]

theorem apply_move_eq (t : Tower) (pt : PTower) (hg : pt.g = pack t.grid)
    (hlen : pt.len = t.grid.length) (hlt : rowsLT t.grid) (r : Rock) :
    (pt.apply_move r).g = pack (t.apply_move r).grid ∧
    (pt.apply_move r).len = (t.apply_move r).grid.length ∧
    rowsLT (t.apply_move r).grid := by
  obtain ⟨s, ⟨x, py⟩⟩ := r
  rw [apply_move_def]
  have hbits : (Rock.mk s (x, py)).shifted_bits.enum
      = [(0, srow s x 0), (1, srow s x 1), (2, srow s x 2), (3, srow s x 3)] := by
    rw [shifted_bits_eq]
    rfl
  rw [hbits]
  have key := applyFold py pt.len
    [(0, srow s x 0), (1, srow s x 1), (2, srow s x 2), (3, srow s x 3)] t.grid hlt
    (by
      intro q hq
      simp only [List.mem_cons, List.not_mem_nil, or_false] at hq
      rcases hq with h | h | h | h <;> (rw [h]; exact srow_lt s x _))
    (by rw [hlen])
  obtain ⟨k1, k2, k3⟩ := key
  simp only [List.foldl_cons, List.foldl_nil] at k1 k2 k3
  refine ⟨?_, ?_, k2⟩
  · show fsetRow pt.len py (fsetRow pt.len py (fsetRow pt.len py (fsetRow pt.len py
      pt.g 0 (srow s x 0)) 1 (srow s x 1)) 2 (srow s x 2)) 3 (srow s x 3) = _
    rw [hg]
    exact k1.symm
  · show pt.len = _
    rw [hlen]
    exact k3.symm

/-! ## Arena growth, jet cycling, shape cycling -/

theorem grow_eq (pt : PTower) (l : List Nat) (hg : pt.g = pack l)
    (hlen : pt.len = l.length) (hlt : rowsLT l) (new_y : Nat) :
    (pt.grow new_y).g = pack (growGrid l new_y) ∧
    (pt.grow new_y).len = (growGrid l new_y).length ∧
    rowsLT (growGrid l new_y) := by
  refine ⟨?_, ?_, ?_⟩
  · show pt.g + ((prep (new_y + 1 - pt.len)) <<< (16 * pt.len)) = _
    rw [hg, hlen, growGrid, pack_append, prep_eq, Nat.shiftLeft_eq,
      show ((2:Nat) ^ (16 * l.length)) = 65536 ^ l.length by
        rw [show (65536 : Nat) = 2 ^ 16 by norm_num, ← pow_mul]]
  · show pt.len + (new_y + 1 - pt.len) = _
    rw [hlen, growGrid, List.length_append, List.length_replicate]
  · intro r hr
    rw [growGrid] at hr
    rcases List.mem_append.1 hr with h | h
    · exact hlt r h
    · rw [List.eq_of_mem_replicate h]
      norm_num [EMPTY_ROW]

theorem packMoves_bit (p : List Move) : ∀ j, j < p.length →
    (packMoves p >>> j) % 2 =
      (match p.getD j Move.left with | .right => 1 | .left => 0) := by
  induction p with
  | nil => intro j hj; simp at hj
  | cons m ms ih =>
    intro j hj
    cases j with
    | zero =>
      show packMoves (m :: ms) % 2 = _
      cases m <;> simp [packMoves, Nat.add_mul_mod_self_left]
    | succ j =>
      have hsh : packMoves (m :: ms) >>> (j + 1) = packMoves ms >>> j := by
        rw [show j + 1 = 1 + j by omega, Nat.shiftRight_add]
        congr 1
        show packMoves (m :: ms) >>> 1 = packMoves ms
        rw [Nat.shiftRight_eq_div_pow, pow_one]
        cases m <;> simp [packMoves] <;> omega
      rw [hsh]
      exact ih j (by simpa using hj)

theorem mbit_eq (p : List Move) (i : Nat) :
    mbit (packMoves p) p.length i = nextMove p i := by
  rcases p with _ | ⟨m, ms⟩
  · show cond (Nat.beq (Nat.mod (Nat.shiftRight 0 (Nat.mod i 0)) 2) 1) Move.right Move.left = _
    simp [nextMove, Nat.zero_shiftRight]
    rfl
  · have hlen : 0 < (m :: ms).length := by simp
    have hmod : i % (m :: ms).length < (m :: ms).length := Nat.mod_lt _ hlen
    have hbit := packMoves_bit (m :: ms) (i % (m :: ms).length) hmod
    show cond (Nat.beq ((packMoves (m :: ms) >>> (i % (m :: ms).length)) % 2) 1) Move.right Move.left = _
    rw [hbit, nextMove]
    cases hm : (m :: ms).getD (i % (m :: ms).length) Move.left <;> rfl

theorem fNextShape_eq (si : Nat) :
    fNextShape si = shapeOrder.getD ((si + 1) % 5) Shape.line := by
  have h5 : (si + 1) % 5 < 5 := Nat.mod_lt _ (by norm_num)
  have e : Nat.mod (Nat.add si 1) 5 = (si + 1) % 5 := rfl
  show (match Nat.mod (Nat.add si 1) 5 with
    | 0 => Shape.line | 1 => Shape.cross | 2 => Shape.angle
    | 3 => Shape.stick | _ => Shape.square) = _
  rw [e]
  rcases hk : (si + 1) % 5 with _ | _ | _ | _ | _ | n
  · rfl
  · rfl
  · rfl
  · rfl
  · rfl
  · omega

theorem dropLoop_eq (t : Tower) (pt : PTower) (ht : TowerRel t pt) (p : List Move) :
    ∀ fuel r mi, fDropLoop pt (packMoves p) p.length fuel r mi = dropLoop t p fuel r mi := by
  intro fuel
  obtain ⟨hg, hlen, hlt⟩ := ht
  induction fuel with
  | zero => intro r mi; rfl
  | succ fuel ih =>
    intro r mi
    show (let res := pt.move_down (pt.perform_move r (mbit (packMoves p) p.length mi))
      cond res.1 (fDropLoop pt (packMoves p) p.length fuel res.2 (Nat.add mi 1))
        (Prod.mk res.2 (Nat.add mi 1))) = _
    rw [mbit_eq, perform_move_eq t pt hg hlt, move_down_eq t pt hg hlt]
    show cond (t.move_down (t.perform_move r (nextMove p mi))).1 _ _ = _
    rw [dropLoop]
    by_cases h : (t.move_down (t.perform_move r (nextMove p mi))).1 <;>
      simp [h, ih]

theorem stepRock_eq {s : SimState} {ps : PSimState} (h : SimRel s ps) (p : List Move) :
    SimRel (stepRock p s) (fStepRock (packMoves p) p.length ps) := by
  obtain ⟨⟨hg, hlen, hlt⟩, hr, hm, hmi, hsi⟩ := h
  have hdrop : fDropLoop ps.tower (packMoves p) p.length (Nat.add ps.rock.point.2 1) ps.rock ps.mi
      = dropLoop s.tower p (s.rock.point.2 + 1) s.rock s.mi := by
    rw [hr, hmi]
    exact dropLoop_eq s.tower ps.tower ⟨hg, hlen, hlt⟩ p _ _ _
  obtain ⟨a1, a2, a3⟩ := apply_move_eq s.tower ps.tower hg hlen hlt
    (dropLoop s.tower p (s.rock.point.2 + 1) s.rock s.mi).1
  obtain ⟨g1, g2, g3⟩ := grow_eq
    (ps.tower.apply_move (dropLoop s.tower p (s.rock.point.2 + 1) s.rock s.mi).1)
    (s.tower.apply_move (dropLoop s.tower p (s.rock.point.2 + 1) s.rock s.mi).1).grid
    a1 a2 a3
    (Nat.max s.max_y (dropLoop s.tower p (s.rock.point.2 + 1) s.rock s.mi).1.point.2 + 3 +
      (shapeOrder.getD ((s.si + 1) % 5) Shape.line).height)
  dsimp only [stepRock, fStepRock]
  rw [hdrop, hm, fNextShape_eq, hsi]
  exact ⟨⟨g1, g2, g3⟩, rfl, rfl, rfl, rfl⟩

theorem init_rel : SimRel initState fInitState := by
  refine ⟨⟨?_, rfl, ?_⟩, rfl, rfl, rfl, rfl⟩
  · show (4740885567116192907263 : Nat) = pack ((List.replicate 5 EMPTY_ROW).set 0 65535)
    rfl
  · intro r hr
    fin_cases hr <;> norm_num [EMPTY_ROW]

theorem runRocks_rel (p : List Move) :
    ∀ n, SimRel (runRocks p n) (fRunRocks (packMoves p) p.length n)
  | 0 => init_rel
  | n + 1 => stepRock_eq (runRocks_rel p n) p

theorem runRocks_max_eq (p : List Move) (n : Nat) :
    (runRocks p n).max_y = (fRunRocks (packMoves p) p.length n).max_y :=
  ((runRocks_rel p n).2.2.1).symm

theorem fRunFrom_add (jp plen : Nat) (s : PSimState) (a b : Nat) :
    fRunFrom jp plen s (a + b) = fRunFrom jp plen (fRunFrom jp plen s a) b := by
  induction b with
  | zero => rfl
  | succ b ih =>
    show fStepRock _ _ (fRunFrom jp plen s (a + b)) = _
    rw [ih]
    rfl

/-! ## Rock geometry facts -/

theorem shifted_bits_length (r : Rock) : r.shifted_bits.length = 4 := by
  obtain ⟨s, ⟨x, y⟩⟩ := r
  rw [shifted_bits_eq]
  rfl

theorem shifted_getD_srow (s : Shape) (x y j : Nat) :
    (Rock.mk s (x, y)).shifted_bits.getD j 0 = srow s x j := by
  rw [shifted_bits_eq]
  by_cases hj : j < 4
  · exact getD_srow s x j hj
  · rw [List.getD_eq_default _ _ (by simp only [List.length_cons, List.length_nil]; omega)]
    symm
    rw [srow_def]
    have hs : s.sbits < 2 ^ (16 * j) := by
      have h64 : s.sbits < 2 ^ 64 := by cases s <;> norm_num [Shape.sbits]
      calc s.sbits < 2 ^ 64 := h64
      _ ≤ 2 ^ (16 * j) := Nat.pow_le_pow_right (by norm_num) (by omega)
    have hz : s.sbits >>> (16 * j) = 0 := by
      rw [Nat.shiftRight_eq_div_pow]
      exact Nat.div_eq_of_lt hs
    rw [hz]
    simp

theorem rock_height_le_four (r : Rock) : r.height ≤ 4 := by
  obtain ⟨s, p⟩ := r
  cases s <;> simp [Rock.height, Shape.height]

/-- C10: `row_at_y` is total and returns `some` exactly when the query row
is at or below the anchor, the offset `anchor - y` lands inside the
4-entry shifted row list, and that entry is nonzero; in every other case
(including `y` above the anchor, where the subtraction would underflow in
Rust without `checked_sub`) it returns `none`; and the returned row is
that list entry. -/
theorem c10_row_at_y_total (r : Rock) (y : Nat) :
    r.shifted_bits.length = 4 ∧
    ((r.row_at_y y).isSome = true ↔
      (y ≤ r.point.2 ∧ r.point.2 - y < r.shifted_bits.length ∧
        r.shifted_bits.getD (r.point.2 - y) 0 ≠ 0)) ∧
    (∀ rb, r.row_at_y y = some rb → rb = r.shifted_bits.getD (r.point.2 - y) 0) := by
  obtain ⟨s, ⟨x, py⟩⟩ := r
  refine ⟨shifted_bits_length _, ?_, ?_⟩
  · rw [row_at_y_eq, shifted_bits_length, shifted_getD_srow]
    dsimp only
    by_cases h1 : y ≤ py
    · by_cases h2 : py - y < 4
      · by_cases h3 : 0 < srow s x (py - y)
        · simp [h1, h2, h3]
          omega
        · simp [h1, h2, h3]
          omega
      · simp [h1, h2]
    · simp [h1]
  · intro rb hrb
    rw [row_at_y_eq] at hrb
    rw [shifted_getD_srow]
    dsimp only at hrb ⊢
    by_cases h1 : y ≤ py
    · by_cases h2 : py - y < 4
      · by_cases h3 : 0 < srow s x (py - y)
        · simp [h1, h2, h3] at hrb
          omega
        · simp [h1, h2, h3] at hrb
      · simp [h1, h2] at hrb
    · simp [h1] at hrb

/-- C10 witness: at the cross rock of the source's `test_cross`, the
characterization instantiates: the middle row is a `some` with the listed
value. -/
theorem c10_witness :
    (Rock.mk Shape.cross (2, 4)).row_at_y 3 =
      some ((Rock.mk Shape.cross (2, 4)).shifted_bits.getD ((2, 4).2 - 3) 0) := by
  have h := (c10_row_at_y_total (Rock.mk Shape.cross (2, 4)) 3).2.2
  rcases hv : (Rock.mk Shape.cross (2, 4)).row_at_y 3 with _ | rb
  · exact absurd hv (by decide)
  · rw [h rb hv]

/-- C5 counterexample: the claim "bits are listed bottom row first and the
anchor y is the shaft row of the rock's lowest non-empty row" entails
that every occupied shaft row is at or above the anchor; the Angle rock
at anchor 4 occupies row 2, strictly below its anchor, refuting it. -/
theorem c5_counterexample :
    ¬ (∀ (r : Rock) (yq : Nat), (r.row_at_y yq).isSome = true → r.point.2 ≤ yq) := by
  intro h
  have h2 := h (Rock.mk Shape.angle (3, 4)) 2 (by decide)
  exact absurd h2 (by decide)

/-- C5 amended: the shape catalog lists rows top row first (index 0 = top),
the anchor y is the shaft row of the rock's highest non-empty shape row
(every occupied row is at or below it), shape row j occupies shaft row
`anchor - j`, and `row_at_y` at the anchor yields the shape's top row;
index 0 of every catalog entry is a nonzero (top) row. -/
theorem c5_amended_top_first (r : Rock) :
    (∀ yq, (r.row_at_y yq).isSome = true → yq ≤ r.point.2) ∧
    (∀ j, j < 4 → j ≤ r.point.2 → r.shifted_bits.getD j 0 ≠ 0 →
      r.row_at_y (r.point.2 - j) = some (r.shifted_bits.getD j 0)) ∧
    (∀ s : Shape, s.bits.getD 0 0 ≠ 0) := by
  obtain ⟨s, ⟨x, py⟩⟩ := r
  refine ⟨?_, ?_, by intro u; cases u <;> decide⟩
  · intro yq hq
    rw [row_at_y_eq] at hq
    by_cases h1 : yq ≤ py
    · exact h1
    · simp [h1] at hq
  · intro j hj4 hjp hne
    dsimp only at hjp
    rw [shifted_getD_srow] at hne ⊢
    rw [row_at_y_eq]
    dsimp only
    rw [if_pos (by omega : py - j ≤ py), show py - (py - j) = j by omega,
      if_pos hj4, if_pos (by omega : 0 < srow s x j)]

/-- C5 amended witness: for the Angle rock of the source's `test_angle`,
shape row 2 (the bottom slab) occupies shaft row `anchor - 2`. -/
theorem c5_amended_witness :
    (Rock.mk Shape.angle (3, 4)).row_at_y (4 - 2) =
      some ((Rock.mk Shape.angle (3, 4)).shifted_bits.getD 2 0) :=
  (c5_amended_top_first (Rock.mk Shape.angle (3, 4))).2.1 2 (by decide) (by decide)
    (by decide)

/-- C8: building the jet pattern keeps exactly the `<` and `>` characters,
in input order (each `>` a Right push, each `<` a Left push, everything
else silently skipped); and `part_one` reports a fatal `none` exactly on
an empty resulting pattern instead of silently simulating with no
movement. -/
theorem c8_parse_moves_spec (s : String) :
    parse_moves s = (s.toList.filter (fun c => c == '>' || c == '<')).map
      (fun c => if c == '>' then Move.right else Move.left) ∧
    (part_one s = none ↔ parse_moves s = []) := by
  constructor
  · rw [parse_moves]
    induction s.toList with
    | nil => rfl
    | cons c cs ih =>
      by_cases h1 : c = '>'
      · simp [List.filterMap_cons, List.filter_cons, charToMove, h1, ih]
      · by_cases h2 : c = '<'
        · simp [List.filterMap_cons, List.filter_cons, charToMove, h1, h2, ih]
        · simp [List.filterMap_cons, List.filter_cons, charToMove, h1, h2, ih]
  · show (if (parse_moves s).isEmpty then none
      else some ((runRocks (parse_moves s) 2022).max_y % 4294967296)) = none ↔ _
    rcases hp : parse_moves s with _ | ⟨m, ms⟩
    · simp
    · simp

theorem filter_ne_eq_take (l : List Nat) (k : Nat) (hk : k ≤ l.length)
    (h : nonzeroUpTo l k) : l.filter (fun b => b != 0) = l.take k := by
  induction l generalizing k with
  | nil =>
    simp
  | cons a l ih =>
    cases k with
    | zero =>
      have h0 : a = 0 := by
        have := h 0 (by simp)
        simpa using this
      have htail : nonzeroUpTo l 0 := by
        intro j hj
        have := h (j + 1) (by simpa using hj)
        simpa using this
      simpa [List.filter_cons, h0] using ih 0 (by omega) htail
    | succ k =>
      have ha : a ≠ 0 := by
        have := h 0 (by simp)
        simp at this
        omega
      have htail : nonzeroUpTo l k := by
        intro j hj
        have := h (j + 1) (by simpa using hj)
        simpa [Nat.succ_lt_succ_iff] using this
      simp [List.filter_cons, ha, List.take_succ_cons,
        ih k (by simpa using hk) htail]

theorem all_enumFrom_iff (f : Nat × Nat → Bool) : ∀ (l : List Nat) (i : Nat),
    ((l.enumFrom i).all f = true) ↔ ∀ j, j < l.length → f (i + j, l.getD j 0) = true := by
  intro l
  induction l with
  | nil => simp
  | cons a l ih =>
    intro i
    simp only [List.enumFrom, List.all_cons, Bool.and_eq_true, ih (i + 1),
      List.length_cons]
    constructor
    · rintro ⟨h0, hrest⟩ j hj
      cases j with
      | zero => simpa using h0
      | succ j =>
        have := hrest j (by omega)
        simpa [Nat.add_assoc, Nat.add_comm 1 j] using this
    · intro hall
      refine ⟨by simpa using hall 0 (by omega), ?_⟩
      intro j hj
      have := hall (j + 1) (by omega)
      simpa [Nat.add_assoc, Nat.add_comm 1 j] using this

theorem getD_take (l : List Nat) (k j : Nat) (hj : j < k) :
    (l.take k).getD j 0 = l.getD j 0 := by
  induction l generalizing k j with
  | nil => simp
  | cons a l ih =>
    cases k with
    | zero => omega
    | succ k =>
      cases j with
      | zero => simp
      | succ j => simpa using ih k j (by omega)

/-- The collision scan accepts exactly when every one of the first
`height` shifted rows, shifted one more column, misses grid row
`point.1 - j` — the unfiltered index pairing. -/
theorem can_move_iff (t : Tower) (r : Rock) (m : Move)
    (h : nonzeroUpTo r.shifted_bits r.height) :
    t.can_move r m = true ↔
      ∀ j, j < r.height →
        t.grid.getD (r.point.2 - j) 0 &&& shiftRow m (r.shifted_bits.getD j 0) = 0 := by
  have hk : r.height ≤ r.shifted_bits.length := by
    rw [shifted_bits_length]
    exact rock_height_le_four r
  rw [Tower.can_move, filter_ne_eq_take _ _ hk h, List.enum, all_enumFrom_iff]
  have hlen : (r.shifted_bits.take r.height).length = r.height := by
    rw [List.length_take]
    omega
  simp only [hlen, Nat.zero_add]
  constructor
  · intro hall j hj
    have := hall j hj
    rw [getD_take _ _ _ hj] at this
    simpa using this
  · intro hall j hj
    rw [getD_take _ _ _ hj]
    simpa using hall j hj

/-- C3: the horizontal-shift operation rejects exactly when some shifted
rock row, pushed one more column, overlaps an occupied grid bit (which
includes the permanently set wall bits); a rejected shift leaves the rock
byte-for-byte unchanged, an accepted one changes exactly the horizontal
offset, by one column in the direction of the move. Hypotheses: the
rock's nonzero shifted rows form the usual contiguous prefix (true of
every reachable rock), and a left move starts at offset at least 1 (the
Rust code would underflow `usize` otherwise). -/
theorem c3_perform_move_spec (t : Tower) (r : Rock) (m : Move)
    (h : nonzeroUpTo r.shifted_bits r.height)
    (hx : m = Move.left → 1 ≤ r.point.1) :
    ((t.can_move r m = false) ↔
      ∃ j, j < r.height ∧
        t.grid.getD (r.point.2 - j) 0 &&& shiftRow m (r.shifted_bits.getD j 0) ≠ 0) ∧
    (t.can_move r m = false → t.perform_move r m = r) ∧
    (t.can_move r m = true →
      (t.perform_move r m).shape = r.shape ∧
      (t.perform_move r m).point.2 = r.point.2 ∧
      (m = Move.left → (t.perform_move r m).point.1 + 1 = r.point.1) ∧
      (m = Move.right → (t.perform_move r m).point.1 = r.point.1 + 1)) := by
  refine ⟨?_, ?_, ?_⟩
  · rw [← Bool.not_eq_true, can_move_iff t r m h]
    push_neg
    constructor
    · rintro ⟨j, hj, hne⟩
      exact ⟨j, hj, hne⟩
    · rintro ⟨j, hj, hne⟩
      exact ⟨j, hj, hne⟩
  · intro hcm
    rw [Tower.perform_move, hcm]
    rfl
  · intro hcm
    rw [Tower.perform_move, hcm]
    obtain ⟨sh, ⟨x, y⟩⟩ := r
    cases m with
    | left =>
      refine ⟨rfl, rfl, ?_, ?_⟩
      · intro _
        have h1 : 1 ≤ x := hx rfl
        show x - 1 + 1 = x
        omega
      · intro hco
        exact absurd hco (by simp)
    | right =>
      refine ⟨rfl, rfl, ?_, ?_⟩
      · intro hco
        exact absurd hco (by simp)
      · intro _
        rfl

/-- C3 witness: the line rock of the source's `test_line` at offset 4 is
refused a right move by the wall, and its位置 is unchanged. -/
theorem c3_witness :
    Tower.perform_move (Tower.mk (List.replicate 5 EMPTY_ROW))
      (Rock.mk Shape.line (4, 2)) Move.right = Rock.mk Shape.line (4, 2) :=
  (c3_perform_move_spec (Tower.mk (List.replicate 5 EMPTY_ROW))
    (Rock.mk Shape.line (4, 2)) Move.right
    (by
      intro j hj
      have hj4 : j < 4 := by simpa [shifted_bits_length] using hj
      interval_cases j <;> decide)
    (by intro hco; cases hco)).2.1 (by decide)

/-- C9: every catalog entry is a list of exactly 4 row bitmasks whose
nonzero entries form a contiguous prefix of length exactly
`height(shape)`; consequently filtering out zero rows before enumerating
(as `perform_move` does) assigns each nonzero row the same index it has
in the unfiltered list, so the collision scan tests shape row `j`
against grid row `point.1 - j` — the correct shaft height. -/
theorem c9_catalog_rows :
    (∀ s : Shape, s.bits.length = 4 ∧ nonzeroUpTo s.bits s.height) ∧
    (∀ (l : List Nat) (k : Nat), k ≤ l.length → nonzeroUpTo l k →
      l.filter (fun b => b != 0) = l.take k ∧
      ∀ j, j < k → (l.filter (fun b => b != 0)).getD j 0 = l.getD j 0) ∧
    (∀ (t : Tower) (r : Rock) (m : Move), nonzeroUpTo r.shifted_bits r.height →
      (t.can_move r m = true ↔
        ∀ j, j < r.height →
          t.grid.getD (r.point.2 - j) 0 &&& shiftRow m (r.shifted_bits.getD j 0) = 0)) := by
  refine ⟨?_, ?_, fun t r m h => can_move_iff t r m h⟩
  · intro s
    refine ⟨by cases s <;> rfl, ?_⟩
    intro j hj
    have hj4 : j < 4 := by
      cases s <;> simpa [Shape.bits] using hj
    cases s <;> (interval_cases j <;> decide)
  · intro l k hk h
    refine ⟨filter_ne_eq_take l k hk h, ?_⟩
    intro j hj
    rw [filter_ne_eq_take l k hk h, getD_take _ _ _ hj]

/-- C9 witness: the Line catalog entry at shift 3, concretely. -/
theorem c9_witness :
    ([480, 0, 0, 0] : List Nat).filter (fun b => b != 0) = [480, 0, 0, 0].take 1 :=
  ((c9_catalog_rows.2.1) [480, 0, 0, 0] 1 (by norm_num)
    (by
      intro j hj
      have hj4 : j < 4 := by simpa using hj
      interval_cases j <;> decide)).1

/-- Full characterization of `move_down`: the false/unchanged and
true/decrement cases, shared by several developments below. -/
theorem move_down_char (t : Tower) (r : Rock) (hy : r.height ≤ r.point.2) :
    (((t.move_down r).1 = false) ↔
      (r.point.2 = r.height ∨
        ∃ ty, r.point.2 - r.height - 1 ≤ ty ∧ ty ≤ r.point.2 - 1 ∧
          ∃ rb, r.row_at_y (ty + 1) = some rb ∧ t.grid.getD ty 0 &&& rb ≠ 0)) ∧
    ((t.move_down r).1 = false → (t.move_down r).2 = r) ∧
    ((t.move_down r).1 = true →
      (t.move_down r).2.point.2 + 1 = r.point.2 ∧
      (t.move_down r).2.point.1 = r.point.1 ∧
      (t.move_down r).2.shape = r.shape) := by
  have hpos : 1 ≤ r.height := by
    obtain ⟨sh, p⟩ := r
    cases sh <;> simp [Rock.height, Shape.height]
  by_cases hg : r.point.2 ≤ r.height
  · have hey : r.point.2 = r.height := by omega
    have hmd : t.move_down r = (false, r) := by
      rw [Tower.move_down, if_pos hg]
    rw [hmd]
    refine ⟨?_, fun _ => rfl, by simp⟩
    simp [hey]
  · have harr : ∀ j, (match r.row_at_y (r.point.2 - r.height - 1 + j + 1) with
        | some rock_bits => (t.grid.getD (r.point.2 - r.height - 1 + j) 0) &&& rock_bits == 0
        | none => true) = false ↔
        ∃ rb, r.row_at_y (r.point.2 - r.height - 1 + j + 1) = some rb ∧
          t.grid.getD (r.point.2 - r.height - 1 + j) 0 &&& rb ≠ 0 := by
      intro j
      rcases hrow : r.row_at_y (r.point.2 - r.height - 1 + j + 1) with _ | rb
      · simp
      · simp
    have hmd : t.move_down r =
        (if (List.range (r.height + 1)).all (fun j =>
            match r.row_at_y (r.point.2 - r.height - 1 + j + 1) with
            | some rock_bits => (t.grid.getD (r.point.2 - r.height - 1 + j) 0) &&& rock_bits == 0
            | none => true)
          then (true, { r with point := (r.point.1, r.point.2 - 1) }) else (false, r)) := by
      rw [Tower.move_down, if_neg hg]
    rw [hmd]
    rcases hcan : (List.range (r.height + 1)).all (fun j =>
        match r.row_at_y (r.point.2 - r.height - 1 + j + 1) with
        | some rock_bits => (t.grid.getD (r.point.2 - r.height - 1 + j) 0) &&& rock_bits == 0
        | none => true) with _ | _
    · rw [if_neg (by simp [hcan])]
      have hex : ∃ j, j < r.height + 1 ∧ ¬ (match r.row_at_y (r.point.2 - r.height - 1 + j + 1) with
          | some rock_bits => (t.grid.getD (r.point.2 - r.height - 1 + j) 0) &&& rock_bits == 0
          | none => true) = true := by
        by_contra hall
        push_neg at hall
        have hT : (List.range (r.height + 1)).all (fun j =>
            match r.row_at_y (r.point.2 - r.height - 1 + j + 1) with
            | some rock_bits => (t.grid.getD (r.point.2 - r.height - 1 + j) 0) &&& rock_bits == 0
            | none => true) = true := by
          rw [List.all_eq_true]
          intro j hj
          exact hall j (by simpa using hj)
        rw [hcan] at hT
        cases hT
      refine ⟨?_, fun _ => rfl, by simp⟩
      simp only [eq_self_iff_true, true_iff]
      right
      obtain ⟨j, hj, hfj⟩ := hex
      rw [Bool.not_eq_true] at hfj
      rw [harr j] at hfj
      obtain ⟨rb, hrb, hne⟩ := hfj
      exact ⟨r.point.2 - r.height - 1 + j, by omega, by omega, rb, hrb, hne⟩
    · rw [if_pos (by simp [hcan])]
      refine ⟨?_, by simp, ?_⟩
      · simp only [Bool.true_eq_false, false_iff]
        push_neg
        constructor
        · omega
        · intro ty hty1 hty2 rb hrb
          have hall := List.all_eq_true.1 hcan
          have hjlt : ty - (r.point.2 - r.height - 1) < r.height + 1 := by omega
          have := hall (ty - (r.point.2 - r.height - 1)) (by simpa using hjlt)
          have hty : r.point.2 - r.height - 1 + (ty - (r.point.2 - r.height - 1)) = ty := by
            omega
          rw [hty] at this
          rw [hrb] at this
          simpa using this
      · intro _
        refine ⟨by show r.point.2 - 1 + 1 = r.point.2; omega, rfl, rfl⟩

/-- C4: the fall operation returns false and leaves the rock unchanged
exactly when the rock is already at the floor boundary (its lowest row is
shaft row 1, i.e. the anchor equals the shape height) or some occupied
rock row moved down one shaft row would overlap a grid row; on success it
decrements the vertical anchor by exactly one and returns true. The
hypothesis `height ≤ anchor` states the rock is at or above its
floor-resting position, as every reachable rock is. -/
theorem c4_move_down_spec (t : Tower) (r : Rock) (hy : r.height ≤ r.point.2) :
    (((t.move_down r).1 = false) ↔
      (r.point.2 = r.height ∨
        ∃ ty, r.point.2 - r.height - 1 ≤ ty ∧ ty ≤ r.point.2 - 1 ∧
          ∃ rb, r.row_at_y (ty + 1) = some rb ∧ t.grid.getD ty 0 &&& rb ≠ 0)) ∧
    ((t.move_down r).1 = false → (t.move_down r).2 = r) ∧
    ((t.move_down r).1 = true →
      (t.move_down r).2.point.2 + 1 = r.point.2 ∧
      (t.move_down r).2.point.1 = r.point.1 ∧
      (t.move_down r).2.shape = r.shape) :=
  move_down_char t r hy

/-- C4 witness: a Line shape resting directly on the floor (the source's
`test_tower` end state) rejects any further fall, returning false with its
anchor unchanged. -/
theorem c4_witness :
    (Tower.move_down (Tower.mk ((List.replicate 5 EMPTY_ROW).set 0 65535))
        (Rock.mk Shape.line (3, 1))).1 = false ∧
    (Tower.move_down (Tower.mk ((List.replicate 5 EMPTY_ROW).set 0 65535))
        (Rock.mk Shape.line (3, 1))).2 = Rock.mk Shape.line (3, 1) := by
  have h := c4_move_down_spec (Tower.mk ((List.replicate 5 EMPTY_ROW).set 0 65535))
    (Rock.mk Shape.line (3, 1)) (by decide)
  have h1 : (Tower.move_down (Tower.mk ((List.replicate 5 EMPTY_ROW).set 0 65535))
      (Rock.mk Shape.line (3, 1))).1 = false := by
    rw [h.1]
    left
    decide
  exact ⟨h1, h.2.1 h1⟩

/-! ## Bitwise facts for the tower invariant -/

theorem land_lor_self (a b : Nat) : a &&& (a ||| b) = a := by
  apply Nat.eq_of_testBit_eq
  intro i
  simp only [Nat.testBit_and, Nat.testBit_or]
  cases a.testBit i <;> simp

theorem lor_mask_eq {a m : Nat} (h : a &&& m = m) (b : Nat) : (a ||| b) &&& m = m := by
  apply Nat.eq_of_testBit_eq
  intro i
  have hi := congrArg (fun n => n.testBit i) h
  simp only [Nat.testBit_and, Nat.testBit_or] at hi ⊢
  cases hm : m.testBit i <;> cases ha : a.testBit i <;> simp_all

theorem land_zero_of_mask {a g m : Nat} (hag : a &&& g = 0) (hmg : g &&& m = m) :
    a &&& m = 0 := by
  apply Nat.eq_of_testBit_eq
  intro i
  have h1 := congrArg (fun n => n.testBit i) hag
  have h2 := congrArg (fun n => n.testBit i) hmg
  simp only [Nat.testBit_and, Nat.zero_testBit] at h1 h2 ⊢
  cases hm : m.testBit i <;> cases ha : a.testBit i <;> cases hg : g.testBit i <;> simp_all

theorem lor_65535 {b : Nat} (hb : b < 65536) : 65535 ||| b = 65535 := by
  apply Nat.eq_of_testBit_eq
  intro i
  simp only [Nat.testBit_or]
  by_cases hi : i < 16
  · have ht : (65535 : Nat).testBit i = true := by
      rw [show (65535 : Nat) = 2 ^ 16 - 1 by norm_num, Nat.testBit_two_pow_sub_one]
      simpa using hi
    simp [ht]
  · have h1 : (65535 : Nat).testBit i = false := by
      rw [show (65535 : Nat) = 2 ^ 16 - 1 by norm_num, Nat.testBit_two_pow_sub_one]
      simpa using hi
    have h2 : b.testBit i = false := by
      apply Nat.testBit_lt_two_pow
      calc b < 65536 := hb
      _ = 2 ^ 16 := by norm_num
      _ ≤ 2 ^ i := Nat.pow_le_pow_right (by norm_num) (by omega)
    simp [h1, h2]

theorem lor_lt_65536 {a b : Nat} (ha : a < 65536) (hb : b < 65536) : a ||| b < 65536 := by
  have e : (65536 : Nat) = 2 ^ 16 := by norm_num
  rw [e] at ha hb ⊢
  exact Nat.or_lt_two_pow ha hb

/-! ## Per-write grid characterization -/

theorem getD_set_same (l : List Nat) (n : Nat) (a : Nat) (h : n < l.length) :
    (l.set n a).getD n 0 = a := by
  simp [List.getD_eq_getElem?_getD, List.getElem?_set_self h]

theorem getD_set_other (l : List Nat) {n m : Nat} (a : Nat) (h : n ≠ m) :
    (l.set n a).getD m 0 = l.getD m 0 := by
  simp [List.getD_eq_getElem?_getD, List.getElem?_set_ne h]

theorem sApplyStep_getD (py : Nat) (l : List Nat) (p : Nat × Nat) (i : Nat) :
    (sApplyStep py l p).getD i 0 =
      (if p.2 ≠ 0 ∧ p.1 ≤ py ∧ i = py - p.1 ∧ i < l.length
        then l.getD i 0 ||| p.2 else l.getD i 0) := by
  by_cases h1 : p.2 = 0
  · simp [sApplyStep_of_zero h1, h1]
  · by_cases h2 : p.1 ≤ py
    · rw [sApplyStep_of_ne h1 h2]
      by_cases h3 : i = py - p.1
      · rw [h3]
        by_cases h4 : py - p.1 < l.length
        · rw [getD_set_same l _ _ h4, if_pos ⟨h1, h2, rfl, h4⟩]
        · rw [List.set_eq_of_length_le (by omega), if_neg (fun hc => h4 hc.2.2.2)]
      · rw [getD_set_other l _ (fun he => h3 he.symm), if_neg (fun hc => h3 hc.2.2.1)]
    · simp [sApplyStep_of_gt h1 h2, h1, h2]

theorem sApplyStep_length (py : Nat) (l : List Nat) (p : Nat × Nat) :
    (sApplyStep py l p).length = l.length := by
  by_cases h1 : p.2 = 0
  · rw [sApplyStep_of_zero h1]
  · by_cases h2 : p.1 ≤ py
    · rw [sApplyStep_of_ne h1 h2, List.length_set]
    · rw [sApplyStep_of_gt h1 h2]

theorem applyGrid_rep (py : Nat) : ∀ (ps : List (Nat × Nat)) (l : List Nat),
    (∀ p ∈ ps, p.2 < 65536) →
    (ps.foldl (sApplyStep py) l).length = l.length ∧
    ∀ i, ∃ b, b < 65536 ∧
      (ps.foldl (sApplyStep py) l).getD i 0 = l.getD i 0 ||| b ∧ (py < i → b = 0) := by
  intro ps
  induction ps with
  | nil =>
    intro l _
    refine ⟨rfl, fun i => ⟨0, by norm_num, by simp, fun _ => rfl⟩⟩
  | cons p ps ih =>
    intro l hps
    have hp2 : p.2 < 65536 := hps p (by simp)
    obtain ⟨ihlen, ihrep⟩ := ih (sApplyStep py l p)
      (fun q hq => hps q (by simp [hq]))
    rw [List.foldl_cons]
    refine ⟨by rw [ihlen, sApplyStep_length], ?_⟩
    intro i
    obtain ⟨b, hb, hrep, hbz⟩ := ihrep i
    by_cases hc : p.2 ≠ 0 ∧ p.1 ≤ py ∧ i = py - p.1 ∧ i < l.length
    · refine ⟨p.2 ||| b, lor_lt_65536 hp2 hb, ?_, ?_⟩
      · rw [hrep, sApplyStep_getD, if_pos hc, Nat.lor_assoc]
      · intro hpi
        exact absurd hc.2.2.1 (by omega)
    · refine ⟨b, hb, ?_, hbz⟩
      rw [hrep, sApplyStep_getD, if_neg hc]

theorem enum_srow_bound (s : Shape) (x y : Nat) :
    ∀ p ∈ (Rock.mk s (x, y)).shifted_bits.enum, p.2 < 65536 := by
  intro p hp
  have he : (Rock.mk s (x, y)).shifted_bits.enum
      = [(0, srow s x 0), (1, srow s x 1), (2, srow s x 2), (3, srow s x 3)] := by
    rw [shifted_bits_eq]
    rfl
  rw [he] at hp
  simp only [List.mem_cons, List.not_mem_nil, or_false] at hp
  rcases hp with h | h | h | h <;> (rw [h]; exact srow_lt s x _)

/-- What one settlement does to the grid: length unchanged, every row only
gains bits (all below 2^16), and rows above the rock's anchor unchanged. -/
theorem apply_grid_rep (t : Tower) (r : Rock) :
    (t.apply_move r).grid.length = t.grid.length ∧
    ∀ i, ∃ b, b < 65536 ∧
      (t.apply_move r).grid.getD i 0 = t.grid.getD i 0 ||| b ∧ (r.point.2 < i → b = 0) := by
  obtain ⟨s, ⟨x, py⟩⟩ := r
  rw [apply_move_def]
  exact applyGrid_rep py _ t.grid (enum_srow_bound s x py)

theorem grow_grid_rep (l : List Nat) (ny : Nat) :
    l.length ≤ (growGrid l ny).length ∧ ny < (growGrid l ny).length ∧
    (∀ i, i < l.length → (growGrid l ny).getD i 0 = l.getD i 0) ∧
    (∀ i, l.length ≤ i → i < (growGrid l ny).length →
      (growGrid l ny).getD i 0 = EMPTY_ROW) ∧
    (∀ i, (growGrid l ny).length ≤ i → (growGrid l ny).getD i 0 = 0) := by
  have hlen : (growGrid l ny).length = l.length + (ny + 1 - l.length) := by
    rw [growGrid, List.length_append, List.length_replicate]
  refine ⟨by omega, by omega, ?_, ?_, ?_⟩
  · intro i hi
    rw [growGrid, List.getD_append _ _ _ _ hi]
  · intro i hi1 hi2
    rw [growGrid, List.getD_append_right _ _ _ _ hi1]
    have : i - l.length < ny + 1 - l.length := by omega
    rw [List.getD_eq_getElem _ _ (by simpa using this), List.getElem_replicate]
  · intro i hi
    exact List.getD_eq_default _ _ (by omega)

theorem rowsLT_iff_getD (l : List Nat) :
    rowsLT l ↔ ∀ i, i < l.length → l.getD i 0 < 65536 := by
  constructor
  · intro h i hi
    rw [List.getD_eq_getElem _ _ hi]
    exact h _ (List.getElem_mem hi)
  · intro h r hr
    obtain ⟨i, hi, hrw⟩ := List.mem_iff_getElem.1 hr
    have := h i hi
    rw [List.getD_eq_getElem _ _ hi, hrw] at this
    exact this

theorem stepRock_tower_def (p : List Move) (s : SimState) :
    (stepRock p s).tower = Tower.mk (growGrid
      ((s.tower.apply_move (dropLoop s.tower p (s.rock.point.2 + 1) s.rock s.mi).1).grid)
      (Nat.max s.max_y (dropLoop s.tower p (s.rock.point.2 + 1) s.rock s.mi).1.point.2 + 3 +
        (shapeOrder.getD ((s.si + 1) % 5) Shape.line).height)) := rfl

theorem apply_grow_facts (t : Tower) (r : Rock) (ny : Nat) (h : GridBase t) :
    GridBase (Tower.mk (growGrid (t.apply_move r).grid ny)) ∧
    (growGrid (t.apply_move r).grid ny).getD 0 0 = t.grid.getD 0 0 ∧
    (∀ i, t.grid.getD i 0 &&& (growGrid (t.apply_move r).grid ny).getD i 0 =
      t.grid.getD i 0) ∧
    t.grid.length ≤ (growGrid (t.apply_move r).grid ny).length := by
  obtain ⟨hf, hw, hlt, hpos⟩ := h
  obtain ⟨alen, arep⟩ := apply_grid_rep t r
  obtain ⟨glen1, glen2, gkeep, gnew, goob⟩ := grow_grid_rep (t.apply_move r).grid ny
  rw [alen] at glen1 gkeep gnew
  have hfloor : (growGrid (t.apply_move r).grid ny).getD 0 0 = 65535 := by
    rw [gkeep 0 (by omega)]
    obtain ⟨b, hb, hrep, _⟩ := arep 0
    rw [hrep, hf, lor_65535 hb]
  refine ⟨⟨hfloor, ?_, ?_, ?_⟩, hfloor.trans hf.symm, ?_, by omega⟩
  · intro i hi
    by_cases hia : i < t.grid.length
    · rw [gkeep i hia]
      obtain ⟨b, hb, hrep, _⟩ := arep i
      rw [hrep]
      exact lor_mask_eq (hw i hia) b
    · rw [gnew i (by omega) hi]
      decide
  · rw [rowsLT_iff_getD]
    intro i hi
    by_cases hia : i < t.grid.length
    · rw [gkeep i hia]
      obtain ⟨b, hb, hrep, _⟩ := arep i
      rw [hrep]
      exact lor_lt_65536 ((rowsLT_iff_getD t.grid).1 hlt i hia) hb
    · rw [gnew i (by omega) hi]
      decide
  · show 0 < (growGrid (t.apply_move r).grid ny).length
    omega
  · intro i
    by_cases hia : i < t.grid.length
    · rw [gkeep i hia]
      obtain ⟨b, _, hrep, _⟩ := arep i
      rw [hrep, land_lor_self]
    · have hz : t.grid.getD i 0 = 0 := List.getD_eq_default _ _ (by omega)
      rw [hz]
      simp

theorem gridBase_init : GridBase initState.tower := by
  refine ⟨rfl, ?_, ?_, by decide⟩
  · intro i hi
    have hi5 : i < 5 := by simpa using hi
    interval_cases i <;> decide
  · intro r hr
    fin_cases hr <;> decide

theorem gridBase_run (p : List Move) : ∀ k, GridBase (runRocks p k).tower
  | 0 => gridBase_init
  | k + 1 => by
    have hfacts := apply_grow_facts (runRocks p k).tower
      (dropLoop (runRocks p k).tower p ((runRocks p k).rock.point.2 + 1)
        (runRocks p k).rock (runRocks p k).mi).1
      (Nat.max (runRocks p k).max_y
        (dropLoop (runRocks p k).tower p ((runRocks p k).rock.point.2 + 1)
          (runRocks p k).rock (runRocks p k).mi).1.point.2 + 3 +
        (shapeOrder.getD (((runRocks p k).si + 1) % 5) Shape.line).height)
      (gridBase_run p k)
    show GridBase (stepRock p (runRocks p k)).tower
    rw [stepRock_tower_def]
    exact hfacts.1

/-- C6: along any simulation run, after every rock: row 0 is the all-ones
floor, every arena row keeps its wall bits set; and across one more rock
(its jet pushes and falls touch no tower row, its settlement ors bits in,
the growth appends empty walled rows) the floor row is unchanged and
every row's bits only ever go from 0 to 1 — the old row is a bitwise
subset of the new — while the arena only grows. -/
theorem c6_tower_invariant (p : List Move) (k : Nat) :
    ((runRocks p k).tower.grid.getD 0 0 = 65535 ∧
      (∀ i, i < (runRocks p k).tower.grid.length →
        (runRocks p k).tower.grid.getD i 0 &&& 257 = 257)) ∧
    (runRocks p (k + 1)).tower.grid.getD 0 0 = (runRocks p k).tower.grid.getD 0 0 ∧
    (∀ i, (runRocks p k).tower.grid.getD i 0 &&&
        (runRocks p (k + 1)).tower.grid.getD i 0 =
      (runRocks p k).tower.grid.getD i 0) ∧
    (runRocks p k).tower.grid.length ≤ (runRocks p (k + 1)).tower.grid.length := by
  have hB := gridBase_run p k
  have hfacts := apply_grow_facts (runRocks p k).tower
    (dropLoop (runRocks p k).tower p ((runRocks p k).rock.point.2 + 1)
      (runRocks p k).rock (runRocks p k).mi).1
    (Nat.max (runRocks p k).max_y
      (dropLoop (runRocks p k).tower p ((runRocks p k).rock.point.2 + 1)
        (runRocks p k).rock (runRocks p k).mi).1.point.2 + 3 +
      (shapeOrder.getD (((runRocks p k).si + 1) % 5) Shape.line).height)
    hB
  have hdef : (runRocks p (k + 1)).tower = Tower.mk (growGrid
      (((runRocks p k).tower.apply_move
        (dropLoop (runRocks p k).tower p ((runRocks p k).rock.point.2 + 1)
          (runRocks p k).rock (runRocks p k).mi).1).grid)
      (Nat.max (runRocks p k).max_y
        (dropLoop (runRocks p k).tower p ((runRocks p k).rock.point.2 + 1)
          (runRocks p k).rock (runRocks p k).mi).1.point.2 + 3 +
        (shapeOrder.getD (((runRocks p k).si + 1) % 5) Shape.line).height)) :=
    stepRock_tower_def p (runRocks p k)
  rw [hdef]
  exact ⟨⟨hB.1, hB.2.1⟩, hfacts.2.1, hfacts.2.2.1, hfacts.2.2.2⟩

/-- C6 witness: after zero rocks on a one-push pattern, row 1 of the arena
has its wall bits set. -/
theorem c6_witness :
    (runRocks [Move.left] 0).tower.grid.getD 1 0 &&& 257 = 257 :=
  (c6_tower_invariant [Move.left] 0).1.2 1 (by decide)

/-! ## The rock-position invariant along a run (C7) -/

theorem srow_zero_of_ge (s : Shape) (x : Nat) {j : Nat} (h : 4 ≤ j) : srow s x j = 0 := by
  rw [srow_def]
  have h64 : s.sbits < 2 ^ 64 := by cases s <;> norm_num [Shape.sbits]
  have hz : s.sbits >>> (16 * j) = 0 := by
    rw [Nat.shiftRight_eq_div_pow]
    exact Nat.div_eq_of_lt (lt_of_lt_of_le h64 (Nat.pow_le_pow_right (by norm_num) (by omega)))
  rw [hz]
  simp

theorem srow_x_eq (s : Shape) (x j : Nat) : srow s x j = srow s 0 j >>> x := by
  rw [srow_def, srow_def, Nat.shiftRight_zero]

theorem srow0_lt_512 (s : Shape) (j : Nat) : srow s 0 j < 512 := by
  by_cases h4 : j < 4
  · cases s <;> interval_cases j <;> decide
  · rw [srow_zero_of_ge s 0 (by omega)]
    decide

theorem srow_lt_512 (s : Shape) (x j : Nat) : srow s x j < 512 := by
  rw [srow_x_eq]
  calc srow s 0 j >>> x ≤ srow s 0 j := by
        rw [Nat.shiftRight_eq_div_pow]
        exact Nat.div_le_self _ _
  _ < 512 := srow0_lt_512 s j

theorem srow0_zero_of_height (s : Shape) (j : Nat) (h : s.height ≤ j) : srow s 0 j = 0 := by
  by_cases h4 : j < 4
  · revert h
    cases s <;> (interval_cases j <;> decide)
  · exact srow_zero_of_ge s 0 (by omega)

theorem srow0_ne_of_lt_height (s : Shape) (j : Nat) (h : j < s.height) : srow s 0 j ≠ 0 := by
  have hh : s.height ≤ 4 := by cases s <;> decide
  have h4 : j < 4 := by omega
  revert h
  cases s <;> (interval_cases j <;> decide)

theorem wall_bit_exists (s : Shape) : ∃ j, j < 4 ∧ srow s 0 j &&& 256 ≠ 0 := by
  cases s
  · exact ⟨0, by decide, by decide⟩
  · exact ⟨1, by decide, by decide⟩
  · exact ⟨2, by decide, by decide⟩
  · exact ⟨0, by decide, by decide⟩
  · exact ⟨0, by decide, by decide⟩

theorem subset_disj {a m b : Nat} (ha : a ||| m = m) (hb : b &&& m = 0) : a &&& b = 0 := by
  apply Nat.eq_of_testBit_eq
  intro i
  have h1 := congrArg (fun n => n.testBit i) ha
  have h2 := congrArg (fun n => n.testBit i) hb
  simp only [Nat.testBit_or, Nat.testBit_and, Nat.zero_testBit] at h1 h2 ⊢
  cases hai : a.testBit i <;> cases hbi : b.testBit i <;> cases hmi : m.testBit i <;> simp_all

theorem even_unshift {v : Nat} (h : v &&& 1 = 0) : v >>> 1 <<< 1 = v := by
  rw [Nat.and_one_is_mod] at h
  rw [Nat.shiftRight_eq_div_pow, Nat.shiftLeft_eq]
  simp only [pow_one]
  omega

theorem shiftLeft_shiftLeft (a m n : Nat) : a <<< m <<< n = a <<< (m + n) := by
  simp [Nat.shiftLeft_eq, pow_add, Nat.mul_assoc]

theorem shiftLeft_shiftRight_self (a n : Nat) : a <<< n >>> n = a := by
  rw [Nat.shiftLeft_eq, Nat.shiftRight_eq_div_pow]
  exact Nat.mul_div_cancel _ (pow_pos (by norm_num) n)

theorem mask_one {a : Nat} (h : a &&& 257 = 0) : a &&& 1 = 0 :=
  land_zero_of_mask h (by decide)

theorem mask_256 {a : Nat} (h : a &&& 257 = 0) : a &&& 256 = 0 :=
  land_zero_of_mask h (by decide)

theorem rockOK_x_pos {r : Rock} (hok : RockOK r) : 1 ≤ r.point.1 := by
  by_contra hx
  have hx0 : r.point.1 = 0 := by omega
  obtain ⟨j, hj4, hjw⟩ := wall_bit_exists r.shape
  have hwf := (hok j hj4).2
  rw [hx0] at hwf
  exact hjw (mask_256 hwf)

theorem rockOK_nonzero {r : Rock} (hok : RockOK r) : nonzeroUpTo r.shifted_bits r.height := by
  intro j hj
  rw [shifted_bits_length] at hj
  obtain ⟨s, x, y⟩ := r
  rw [shifted_getD_srow]
  constructor
  · intro hne
    by_contra hge
    push_neg at hge
    exact hne (by rw [srow_x_eq, srow0_zero_of_height s j hge, Nat.zero_shiftRight])
  · intro hlt h0
    have hl := (hok j hj).1
    rw [h0, Nat.zero_shiftLeft] at hl
    exact srow0_ne_of_lt_height s j hlt hl.symm

theorem performOK (t : Tower) (r : Rock) (m : Move) (hB : GridBase t)
    (hlen : r.point.2 < t.grid.length) (hok : RockOK r) :
    RockOK (t.perform_move r m) ∧ (t.perform_move r m).point.2 = r.point.2 ∧
    (t.perform_move r m).shape = r.shape := by
  by_cases hc : t.can_move r m = true
  · have hcm := (can_move_iff t r m (rockOK_nonzero hok)).1 hc
    have hpm : t.perform_move r m = { r with point := (target_x r.point.1 m, r.point.2) } := by
      rw [Tower.perform_move, if_pos hc]
    rw [hpm]
    obtain ⟨s, x, y⟩ := r
    have hlen2 : y < t.grid.length := hlen
    refine ⟨?_, rfl, rfl⟩
    cases m with
    | left =>
      have hx : 1 ≤ x := rockOK_x_pos hok
      intro j hj
      show srow s (x - 1) j <<< (x - 1) = srow s 0 j ∧ srow s (x - 1) j &&& 257 = 0
      by_cases hjh : j < Shape.height s
      · have h0 := hcm j hjh
        rw [shifted_getD_srow] at h0
        have hl := (hok j hj).1
        have hnew : srow s (x - 1) j = srow s x j <<< 1 := by
          calc srow s (x - 1) j = srow s 0 j >>> (x - 1) := srow_x_eq s (x - 1) j
          _ = srow s x j <<< 1 <<< (x - 1) >>> (x - 1) := by
              rw [shiftLeft_shiftLeft, (show 1 + (x - 1) = x by omega), hl]
          _ = srow s x j <<< 1 := shiftLeft_shiftRight_self _ _
        have hsh : shiftRow Move.left (srow s x j) = srow s x j <<< 1 := by
          show srow s x j <<< 1 % 65536 = srow s x j <<< 1
          apply Nat.mod_eq_of_lt
          have hb := srow_lt_512 s x j
          rw [Nat.shiftLeft_eq]
          omega
        rw [hsh, ← hnew] at h0
        have hgw := hB.2.1 (y - j) (by omega)
        constructor
        · rw [hnew, shiftLeft_shiftLeft, (show 1 + (x - 1) = x by omega), hl]
        · exact land_zero_of_mask (by rw [Nat.and_comm]; exact h0) hgw
      · have hz : srow s (x - 1) j = 0 := by
          rw [srow_x_eq, srow0_zero_of_height s j (by omega), Nat.zero_shiftRight]
        constructor
        · rw [hz, Nat.zero_shiftLeft, srow0_zero_of_height s j (by omega)]
        · rw [hz]
          simp
    | right =>
      intro j hj
      show srow s (x + 1) j <<< (x + 1) = srow s 0 j ∧ srow s (x + 1) j &&& 257 = 0
      have hnew : srow s (x + 1) j = srow s x j >>> 1 := by
        rw [srow_def, srow_def, Nat.shiftRight_add]
      by_cases hjh : j < Shape.height s
      · have h0 := hcm j hjh
        rw [shifted_getD_srow] at h0
        have h0' : t.grid.getD (y - j) 0 &&& srow s (x + 1) j = 0 := by
          rw [hnew]
          exact h0
        have hgw := hB.2.1 (y - j) (by omega)
        have hwf := (hok j hj).2
        have hl := (hok j hj).1
        constructor
        · rw [hnew, (show x + 1 = 1 + x by omega), ← shiftLeft_shiftLeft,
            even_unshift (mask_one hwf), hl]
        · exact land_zero_of_mask (by rw [Nat.and_comm]; exact h0') hgw
      · have hz : srow s (x + 1) j = 0 := by
          rw [srow_x_eq, srow0_zero_of_height s j (by omega), Nat.zero_shiftRight]
        constructor
        · rw [hz, Nat.zero_shiftLeft, srow0_zero_of_height s j (by omega)]
        · rw [hz]
          simp
  · have hc' : t.can_move r m = false := by simpa using hc
    have hpm : t.perform_move r m = r := by
      rw [Tower.perform_move, if_neg (by simp [hc'])]
    rw [hpm]
    exact ⟨hok, rfl, rfl⟩

theorem settle_bound (t : Tower) (r : Rock) (my : Nat)
    (hA : ∀ i, my < i → t.grid.getD i 0 ||| 257 = 257)
    (hok : RockOK r) (hf : (t.move_down r).1 = false) :
    r.point.2 ≤ my + r.height := by
  by_cases hy : r.point.2 ≤ r.height
  · omega
  · have hchar := (move_down_char t r (by omega)).1.1 hf
    rcases hchar with heq | ⟨ty, hty1, hty2, rb, hrb, hne⟩
    · omega
    · rw [row_at_y_eq] at hrb
      split_ifs at hrb with h1 h2 h3
      · injection hrb with hrbeq
        have hLh : r.point.2 - (ty + 1) < r.height := by
          by_contra hge
          push_neg at hge
          rw [srow_x_eq, srow0_zero_of_height r.shape _ hge, Nat.zero_shiftRight] at h3
          exact absurd h3 (lt_irrefl 0)
        have hty_my : ty ≤ my := by
          by_contra hgt
          push_neg at hgt
          have hsub := hA ty hgt
          have hwf := (hok (r.point.2 - (ty + 1)) h2).2
          exact hne (subset_disj hsub (hrbeq ▸ hwf))
        omega

theorem dropLoop_inv (t : Tower) (p : List Move) (my : Nat) (hB : GridBase t)
    (hA : ∀ i, my < i → t.grid.getD i 0 ||| 257 = 257) :
    ∀ (fuel : Nat) (r : Rock) (mi : Nat), RockOK r → r.point.2 < t.grid.length →
      r.point.2 < fuel →
      RockOK (dropLoop t p fuel r mi).1 ∧
      (dropLoop t p fuel r mi).1.point.2 < t.grid.length ∧
      (dropLoop t p fuel r mi).1.point.2 ≤ my + (dropLoop t p fuel r mi).1.height ∧
      (dropLoop t p fuel r mi).1.shape = r.shape := by
  intro fuel
  induction fuel with
  | zero =>
    intro r mi _ _ hf
    exact absurd hf (Nat.not_lt_zero _)
  | succ f ih =>
    intro r mi hok hlen hf
    obtain ⟨hok1, hy1, hs1⟩ := performOK t r (nextMove p mi) hB hlen hok
    have hunf : dropLoop t p (f + 1) r mi =
        (if (t.move_down (t.perform_move r (nextMove p mi))).1 then
          dropLoop t p f (t.move_down (t.perform_move r (nextMove p mi))).2 (mi + 1)
        else ((t.move_down (t.perform_move r (nextMove p mi))).2, mi + 1)) := rfl
    by_cases hmd : (t.move_down (t.perform_move r (nextMove p mi))).1 = true
    · rw [hunf, if_pos hmd]
      have hgt : (t.perform_move r (nextMove p mi)).height <
          (t.perform_move r (nextMove p mi)).point.2 := by
        by_contra hle
        push_neg at hle
        have hfd : t.move_down (t.perform_move r (nextMove p mi)) =
            (false, t.perform_move r (nextMove p mi)) := by
          rw [Tower.move_down, if_pos hle]
        rw [hfd] at hmd
        exact absurd hmd (by simp)
      obtain ⟨hd1, hd2, hd3⟩ :=
        (move_down_char t (t.perform_move r (nextMove p mi)) (by omega)).2.2 hmd
      have hok2 : RockOK (t.move_down (t.perform_move r (nextMove p mi))).2 := by
        intro j hj
        rw [hd3, hd2]
        exact hok1 j hj
      have hres := ih (t.move_down (t.perform_move r (nextMove p mi))).2 (mi + 1) hok2
        (by omega) (by omega)
      refine ⟨hres.1, hres.2.1, hres.2.2.1, ?_⟩
      rw [hres.2.2.2, hd3, hs1]
    · have hmd' : (t.move_down (t.perform_move r (nextMove p mi))).1 = false := by
        simpa using hmd
      rw [hunf, if_neg (by simp [hmd'])]
      have hr2 : (t.move_down (t.perform_move r (nextMove p mi))).2 =
          t.perform_move r (nextMove p mi) := by
        by_cases hyy : (t.perform_move r (nextMove p mi)).point.2 ≤
            (t.perform_move r (nextMove p mi)).height
        · rw [Tower.move_down, if_pos hyy]
        · exact (move_down_char t _ (by omega)).2.1 hmd'
      have hbound := settle_bound t (t.perform_move r (nextMove p mi)) my hA hok1 hmd'
      refine ⟨?_, ?_, ?_, ?_⟩
      · show RockOK (t.move_down (t.perform_move r (nextMove p mi))).2
        rw [hr2]
        exact hok1
      · show (t.move_down (t.perform_move r (nextMove p mi))).2.point.2 < t.grid.length
        rw [hr2, hy1]
        exact hlen
      · show (t.move_down (t.perform_move r (nextMove p mi))).2.point.2 ≤
          my + (t.move_down (t.perform_move r (nextMove p mi))).2.height
        rw [hr2]
        exact hbound
      · show (t.move_down (t.perform_move r (nextMove p mi))).2.shape = r.shape
        rw [hr2, hs1]

theorem spawnOK (sh : Shape) (y : Nat) : RockOK (Rock.mk sh (3, y)) := by
  intro j hj
  show srow sh 3 j <<< 3 = srow sh 0 j ∧ srow sh 3 j &&& 257 = 0
  cases sh <;> interval_cases j <;> exact ⟨by decide, by decide⟩

theorem runInv_init : RunInv initState := by
  refine ⟨gridBase_init, ?_, spawnOK Shape.line 4, by decide⟩
  intro i hi
  have hi0 : 0 < i := hi
  by_cases h5 : i < 5
  · interval_cases i <;> decide
  · have hlen5 : initState.tower.grid.length = 5 := rfl
    rw [List.getD_eq_default _ _ (by omega)]
    decide

theorem runInv_step (p : List Move) (s : SimState) (h : RunInv s) :
    RunInv (stepRock p s) ∧ s.max_y ≤ (stepRock p s).max_y ∧
    (stepRock p s).max_y ≤ s.max_y + 4 := by
  obtain ⟨hB, hA, hok, hlen⟩ := h
  obtain ⟨hokR, hlenR, hbR, hsR⟩ := dropLoop_inv s.tower p s.max_y hB hA
    (s.rock.point.2 + 1) s.rock s.mi hok hlen (Nat.lt_succ_self _)
  have hh4 : (dropLoop s.tower p (s.rock.point.2 + 1) s.rock s.mi).1.height ≤ 4 :=
    rock_height_le_four _
  have hyR : (dropLoop s.tower p (s.rock.point.2 + 1) s.rock s.mi).1.point.2 ≤
      Nat.max s.max_y (dropLoop s.tower p (s.rock.point.2 + 1) s.rock s.mi).1.point.2 :=
    Nat.le_max_right _ _
  have hyL : s.max_y ≤
      Nat.max s.max_y (dropLoop s.tower p (s.rock.point.2 + 1) s.rock s.mi).1.point.2 :=
    Nat.le_max_left _ _
  have hms : (stepRock p s).max_y = Nat.max s.max_y
      (dropLoop s.tower p (s.rock.point.2 + 1) s.rock s.mi).1.point.2 := rfl
  have hmr : (stepRock p s).rock = Rock.mk (shapeOrder.getD ((s.si + 1) % 5) Shape.line)
      (3, Nat.max s.max_y (dropLoop s.tower p (s.rock.point.2 + 1) s.rock s.mi).1.point.2
        + 3 + (shapeOrder.getD ((s.si + 1) % 5) Shape.line).height) := rfl
  obtain ⟨hGB, hfloor, hsubset, hmono⟩ := apply_grow_facts s.tower
    (dropLoop s.tower p (s.rock.point.2 + 1) s.rock s.mi).1
    (Nat.max s.max_y (dropLoop s.tower p (s.rock.point.2 + 1) s.rock s.mi).1.point.2 + 3 +
      (shapeOrder.getD ((s.si + 1) % 5) Shape.line).height) hB
  obtain ⟨alen, arep⟩ := apply_grid_rep s.tower
    (dropLoop s.tower p (s.rock.point.2 + 1) s.rock s.mi).1
  obtain ⟨glen1, glen2, gkeep, gnew, goob⟩ := grow_grid_rep
    ((s.tower.apply_move (dropLoop s.tower p (s.rock.point.2 + 1) s.rock s.mi).1).grid)
    (Nat.max s.max_y (dropLoop s.tower p (s.rock.point.2 + 1) s.rock s.mi).1.point.2 + 3 +
      (shapeOrder.getD ((s.si + 1) % 5) Shape.line).height)
  rw [alen] at glen1 gkeep gnew
  refine ⟨⟨?_, ?_, ?_, ?_⟩, ?_, ?_⟩
  · rw [stepRock_tower_def]
    exact hGB
  · intro i hi
    rw [hms] at hi
    rw [stepRock_tower_def]
    show (growGrid
      ((s.tower.apply_move (dropLoop s.tower p (s.rock.point.2 + 1) s.rock s.mi).1).grid)
      (Nat.max s.max_y (dropLoop s.tower p (s.rock.point.2 + 1) s.rock s.mi).1.point.2 + 3 +
        (shapeOrder.getD ((s.si + 1) % 5) Shape.line).height)).getD i 0 ||| 257 = 257
    by_cases hia : i < s.tower.grid.length
    · rw [gkeep i hia]
      obtain ⟨b, hb, hrep, hzero⟩ := arep i
      rw [hrep, hzero (by omega), Nat.or_zero]
      exact hA i (by omega)
    · by_cases hia2 : i < (growGrid
        ((s.tower.apply_move (dropLoop s.tower p (s.rock.point.2 + 1) s.rock s.mi).1).grid)
        (Nat.max s.max_y (dropLoop s.tower p (s.rock.point.2 + 1) s.rock s.mi).1.point.2 + 3
          + (shapeOrder.getD ((s.si + 1) % 5) Shape.line).height)).length
      · rw [gnew i (by omega) hia2]
        decide
      · rw [goob i (by omega)]
        decide
  · rw [hmr]
    exact spawnOK _ _
  · rw [hmr, stepRock_tower_def]
    exact glen2
  · rw [hms]
    exact Nat.le_max_left _ _
  · rw [hms]
    exact Nat.max_le.2 ⟨by omega, by omega⟩

/-- C7: along any simulation run the tracked tower height `max_y` never
decreases from one settled rock to the next, and each rock raises it by at
most 4 — the height of the tallest catalog shape, the Stick; every shape
height is at most the Stick height. -/
theorem c7_height_monotone (p : List Move) (k : Nat) :
    (runRocks p k).max_y ≤ (runRocks p (k + 1)).max_y ∧
    (runRocks p (k + 1)).max_y ≤ (runRocks p k).max_y + 4 ∧
    Shape.stick.height = 4 ∧ (∀ sh : Shape, sh.height ≤ Shape.stick.height) := by
  have hinv : ∀ n, RunInv (runRocks p n) := by
    intro n
    induction n with
    | zero => exact runInv_init
    | succ m ih => exact (runInv_step p (runRocks p m) ih).1
  have hs := runInv_step p (runRocks p k) (hinv k)
  exact ⟨hs.2.1, hs.2.2, rfl, fun sh => by cases sh <;> decide⟩

theorem exChunkA : fRunFrom 882764919207 40 fInitState 250 = exState250 := by rfl

theorem exChunkB : fRunFrom 882764919207 40 exState250 250 = exState500 := by rfl

theorem exChunkC : fRunFrom 882764919207 40 exState500 250 = exState750 := by rfl

theorem exChunkD : fRunFrom 882764919207 40 exState750 250 = exState1000 := by rfl

theorem exChunkE : fRunFrom 882764919207 40 exState1000 250 = exState1250 := by rfl

theorem exChunkF : fRunFrom 882764919207 40 exState1250 250 = exState1500 := by rfl

theorem exChunkG : fRunFrom 882764919207 40 exState1500 250 = exState1750 := by rfl

theorem exChunkH : fRunFrom 882764919207 40 exState1750 250 = exState2000 := by rfl

theorem exChunkI : fRunFrom 882764919207 40 exState2000 22 = exState2022 := by rfl

theorem exRun250 : fRunFrom 882764919207 40 fInitState 250 = exState250 := exChunkA

theorem exRun500 : fRunFrom 882764919207 40 fInitState 500 = exState500 := by
  show fRunFrom 882764919207 40 fInitState (250 + 250) = exState500
  rw [fRunFrom_add, exRun250, exChunkB]

theorem exRun750 : fRunFrom 882764919207 40 fInitState 750 = exState750 := by
  show fRunFrom 882764919207 40 fInitState (500 + 250) = exState750
  rw [fRunFrom_add, exRun500, exChunkC]

theorem exRun1000 : fRunFrom 882764919207 40 fInitState 1000 = exState1000 := by
  show fRunFrom 882764919207 40 fInitState (750 + 250) = exState1000
  rw [fRunFrom_add, exRun750, exChunkD]

theorem exRun1250 : fRunFrom 882764919207 40 fInitState 1250 = exState1250 := by
  show fRunFrom 882764919207 40 fInitState (1000 + 250) = exState1250
  rw [fRunFrom_add, exRun1000, exChunkE]

theorem exRun1500 : fRunFrom 882764919207 40 fInitState 1500 = exState1500 := by
  show fRunFrom 882764919207 40 fInitState (1250 + 250) = exState1500
  rw [fRunFrom_add, exRun1250, exChunkF]

theorem exRun1750 : fRunFrom 882764919207 40 fInitState 1750 = exState1750 := by
  show fRunFrom 882764919207 40 fInitState (1500 + 250) = exState1750
  rw [fRunFrom_add, exRun1500, exChunkG]

theorem exRun2000 : fRunFrom 882764919207 40 fInitState 2000 = exState2000 := by
  show fRunFrom 882764919207 40 fInitState (1750 + 250) = exState2000
  rw [fRunFrom_add, exRun1750, exChunkH]

theorem exRun2022 : fRunFrom 882764919207 40 fInitState 2022 = exState2022 := by
  show fRunFrom 882764919207 40 fInitState (2000 + 22) = exState2022
  rw [fRunFrom_add, exRun2000, exChunkI]

/-- C1: for the published example jet pattern
`>>><<><>><<<>><>>><<<>>><<<><<<>><>><<>>`, the exact-simulation operation
`part_one`, which drops 2022 rocks, returns the tower height 3068. -/
theorem c1_part_one_example : part_one exInput = some 3068 := by
  show (if (parse_moves exInput).isEmpty then none
    else some ((runRocks (parse_moves exInput) 2022).max_y % 4294967296)) = some 3068
  rw [show parse_moves exInput = exMoves from rfl]
  show some ((runRocks exMoves 2022).max_y % 4294967296) = some 3068
  rw [runRocks_max_eq exMoves 2022,
    show packMoves exMoves = 882764919207 from rfl,
    show exMoves.length = 40 from rfl,
    show fRunRocks 882764919207 40 2022 = exState2022 from exRun2022]
  rfl

/-- C2: for the published example jet pattern, the extrapolated simulation
(modelled from the spec, since `part_two` in the source is `todo!()`) with
target rock count 1000000000000 returns the tower height 1514285714288,
via cycle detection and arithmetic extrapolation: the run detects a
repeated fingerprint after 63 simulated rocks and extrapolates, never
simulating all 10^12 rocks. -/
theorem c2_part_two_example :
    part_two_model exInput 1000000000000 = some 1514285714288 := by rfl
